import Mathlib

/-!
Shallow embedding of the Caesar language front end and tree-walking
interpreter (juliuspleunes4/Caesar): the lexer (`src/src/lexer/lexer.cpp`),
the recursive-descent parser (`src/src/parser/parser.cpp`), and the AST
interpreter (`src/src/interpreter/interpreter.cpp`), together with theorems
settling the specification claims about them.

Modelling conventions:
- C++ exceptions become `Except` errors; `throw X` becomes `Except.error`.
- The mutable lexer/parser/interpreter objects become explicit state records
  threaded through the functions.
- Loops and recursion that are not structurally decreasing take an explicit
  fuel argument (`Nat`); running out of fuel is a distinct outcome
  (`fuelOut`), never conflated with a diagnostic of the program.
- `int64_t` is modelled as `Int`; the places where the C++ library functions
  `stoll`/`stoi` range-check against the machine width keep explicit bounds.
- `double` is modelled as `Float`; no claim depends on float arithmetic.
-/

namespace Caesar

/-! ## Token model (`include/caesar/token.h`) -/

/-- `enum class TokenType` from `token.h`, one constructor per enumerator. -/
inductive TokenType where
  | INTEGER | FLOAT | STRING | BOOLEAN
  | IDENTIFIER
  | IF | ELIF | ELSE | WHILE | FOR | IN | DEF | CLASS | RETURN
  | BREAK | CONTINUE | PASS | AND | OR | NOT | IS | NONE
  | PLUS | MINUS | MULTIPLY | DIVIDE | FLOOR_DIVIDE | MODULO | POWER
  | ASSIGN | PLUS_ASSIGN | MINUS_ASSIGN | MULT_ASSIGN | DIV_ASSIGN
  | EQUAL | NOT_EQUAL | LESS | LESS_EQUAL | GREATER | GREATER_EQUAL
  | LPAREN | RPAREN | LBRACKET | RBRACKET | LBRACE | RBRACE
  | COMMA | COLON | SEMICOLON | DOT
  | NEWLINE | INDENT | DEDENT | EOF_TOKEN
  | UNKNOWN
  deriving DecidableEq, Repr

/-- `struct Position` from `token.h`: 1-based line and column. -/
structure Position where
  line : Nat
  column : Nat
  deriving DecidableEq, Repr

/-- `struct Token` from `token.h`: kind, lexeme and source position. -/
structure Token where
  type : TokenType
  value : String
  position : Position
  deriving DecidableEq, Repr

/-! ## Lexer (`src/lexer/lexer.cpp`) -/

/-- Lexer error outcome: `fuelOut` is exhaustion of the termination fuel of
the model (no counterpart in the C++ code, which loops unboundedly), while
`err` models a thrown `LexerException` (`Lexer::error`). -/
inductive LexErr where
  | fuelOut
  | err (msg : String)
  deriving DecidableEq, Repr

/-- The mutable state of the C++ `Lexer` object: the unread suffix of the
source (`source_`/`current_` are modelled by the remaining character list),
the current `position_`, the `at_line_start_` flag and the `indent_stack_`
(top of the stack is the head of the list; it starts as `[0]`). -/
structure LexState where
  src : List Char
  pos : Position
  atLineStart : Bool
  stack : List Nat
  deriving Repr

/-- `Lexer::makeToken`: attaches the current position. -/
def makeToken (st : LexState) (t : TokenType) (v : String) : Token :=
  ⟨t, v, st.pos⟩

/-- `Lexer::error`: the message of the thrown `LexerException`
(without the "Lexer Error: " prefix added by the exception class). -/
def lexError (st : LexState) (msg : String) : LexErr :=
  .err (msg ++ " at line " ++ toString st.pos.line ++ ", column " ++
        toString st.pos.column)

/-- `Lexer::advance` on one character: updates `position_`. -/
def advancePos (p : Position) (c : Char) : Position :=
  if c = '\n' then ⟨p.line + 1, 1⟩ else ⟨p.line, p.column + 1⟩

/-- Keyword table `Lexer::keywords_`. -/
def keywordLookup : String → Option TokenType
  | "if" => some .IF
  | "elif" => some .ELIF
  | "else" => some .ELSE
  | "while" => some .WHILE
  | "for" => some .FOR
  | "in" => some .IN
  | "def" => some .DEF
  | "class" => some .CLASS
  | "return" => some .RETURN
  | "break" => some .BREAK
  | "continue" => some .CONTINUE
  | "pass" => some .PASS
  | "and" => some .AND
  | "or" => some .OR
  | "not" => some .NOT
  | "is" => some .IS
  | "None" => some .NONE
  | "True" => some .BOOLEAN
  | "False" => some .BOOLEAN
  | _ => none

/-- `Lexer::isDigit`. -/
def isDigitC (c : Char) : Bool := '0' ≤ c && c ≤ '9'

/-- `Lexer::isAlpha`. -/
def isAlphaC (c : Char) : Bool :=
  ('a' ≤ c && c ≤ 'z') || ('A' ≤ c && c ≤ 'Z') || c = '_'

/-- `Lexer::isAlphaNumeric`. -/
def isAlphaNumericC (c : Char) : Bool := isAlphaC c || isDigitC c

/-- `std::isspace` on the characters the C locale classifies as space. -/
def isSpaceC (c : Char) : Bool :=
  c = ' ' || c = '\t' || c = '\n' || c = '\x0b' || c = '\x0c' || c = '\r'

/-- `Lexer::skipWhitespace`: consume space characters other than newline. -/
def skipWs : List Char → Position → List Char × Position
  | [], p => ([], p)
  | c :: rest, p =>
    if isSpaceC c && c ≠ '\n' then skipWs rest (advancePos p c)
    else (c :: rest, p)

/-- `Lexer::skipComment`: consume up to (not including) the next newline. -/
def skipCommentChars : List Char → Position → List Char × Position
  | [], p => ([], p)
  | c :: rest, p =>
    if c ≠ '\n' then skipCommentChars rest (advancePos p c)
    else (c :: rest, p)

/-- The leading-whitespace count of `Lexer::handleIndentation`:
spaces count 1, tabs count 8, consuming them. -/
def takeIndent : List Char → Position → Nat → Nat × List Char × Position
  | [], p, lvl => (lvl, [], p)
  | c :: rest, p, lvl =>
    if c = ' ' then takeIndent rest (advancePos p c) (lvl + 1)
    else if c = '\t' then takeIndent rest (advancePos p c) (lvl + 8)
    else (lvl, c :: rest, p)

/-- The pop loop of `Lexer::handleIndentation`: pop levels strictly greater
than the new indentation, one DEDENT per pop.  Returns the number of pops
and the remaining stack. -/
def popIndents : List Nat → Nat → Nat × List Nat
  | [], _ => (0, [])
  | top :: rest, lvl =>
    if lvl < top then
      let (n, st) := popIndents rest lvl
      (n + 1, st)
    else (0, top :: rest)

/-- `Lexer::handleIndentation`. -/
def handleIndentation (st0 : LexState) : Except LexErr (List Token × LexState) :=
  let (lvl, src', pos') := takeIndent st0.src st0.pos 0
  let st := { st0 with src := src', pos := pos' }
  -- Skip empty lines and comments
  match st.src with
  | [] => .ok ([], st)
  | c :: _ =>
    if c = '\n' || c = '#' then
      .ok ([], st)
    else
      let currentIndent := st.stack.headD 0
      if lvl > currentIndent then
        let st' := { st with stack := lvl :: st.stack }
        .ok ([makeToken st' .INDENT ""], st')
      else if lvl < currentIndent then
        let (n, stack') := popIndents st.stack lvl
        let st' := { st with stack := stack' }
        if stack'.isEmpty || stack'.headD 0 ≠ lvl then
          .error (lexError st' "Indentation error: mismatched indentation level")
        else
          .ok (List.replicate n (makeToken st' .DEDENT ""), st')
      else
        .ok ([], st)

/-- The scan loop of `Lexer::tokenizeString` (after the opening quote has
been consumed): collects the literal's value, handling escapes. -/
def scanString (q : Char) : List Char → Position → String →
    Except LexErr (String × List Char × Position)
  | [], p, _ =>
    -- unterminated literal: `error` at the current position
    .error (.err ("Unterminated string literal at line " ++ toString p.line ++
                  ", column " ++ toString p.column))
  | c :: rest, p, acc =>
    if c = q then
      -- consume the closing quote
      .ok (acc, rest, advancePos p c)
    else if c = '\\' then
      match rest with
      | [] =>
        let p' := advancePos p c
        .error (.err ("Unterminated string literal at line " ++ toString p'.line ++
                      ", column " ++ toString p'.column))
      | e :: rest2 =>
        let p2 := advancePos (advancePos p c) e
        let ch : Char :=
          if e = 'n' then '\n'
          else if e = 't' then '\t'
          else if e = 'r' then '\r'
          else if e = '\\' then '\\'
          else if e = '\'' then '\''
          else if e = '"' then '"'
          else if e = '0' then '\x00'
          else e
        scanString q rest2 p2 (acc.push ch)
    else
      scanString q rest (advancePos p c) (acc.push c)

/-- Digit-run helper of `Lexer::tokenizeNumber`. -/
def takeDigits : List Char → Position → String → String × List Char × Position
  | [], p, acc => (acc, [], p)
  | c :: rest, p, acc =>
    if isDigitC c then takeDigits rest (advancePos p c) (acc.push c)
    else (acc, c :: rest, p)

/-- `Lexer::tokenizeNumber` (the cursor stands on the first digit after the
`current_--` backup). -/
def scanNumber (src : List Char) (p : Position) :
    TokenType × String × List Char × Position :=
  let (intPart, src1, p1) := takeDigits src p ""
  match src1 with
  | '.' :: d :: rest =>
    if isDigitC d then
      let (lexeme, src2, p2) :=
        takeDigits (d :: rest) (advancePos p1 '.') (intPart.push '.')
      (.FLOAT, lexeme, src2, p2)
    else (.INTEGER, intPart, src1, p1)
  | _ => (.INTEGER, intPart, src1, p1)

/-- Letter/digit-run helper of `Lexer::tokenizeIdentifier`. -/
def takeIdentChars : List Char → Position → String → String × List Char × Position
  | [], p, acc => (acc, [], p)
  | c :: rest, p, acc =>
    if isAlphaNumericC c then takeIdentChars rest (advancePos p c) (acc.push c)
    else (acc, c :: rest, p)

/-- `Lexer::tokenizeIdentifier` followed by the keyword lookup. -/
def scanIdentifier (src : List Char) (p : Position) :
    TokenType × String × List Char × Position :=
  let (value, src1, p1) := takeIdentChars src p ""
  match keywordLookup value with
  | some kw => (kw, value, src1, p1)
  | none => (.IDENTIFIER, value, src1, p1)

/-- The non-recursive tail of `Lexer::nextToken`: string, number,
identifier/keyword, and one/two-character operator tokens — every branch
after the newline and comment handling.  `st2` is the state before the
first character was consumed (for the `current_--` backup of the number
and identifier scanners), `st3` after. -/
def scanSimpleToken (c : Char) (rest : List Char) (st2 st3 : LexState) :
    Except LexErr (Token × LexState) :=
  if c = '"' || c = '\'' then
    match scanString c st3.src st3.pos "" with
    | .error e => .error e
    | .ok (value, srcS, posS) =>
      let stS := { st3 with src := srcS, pos := posS }
      .ok (makeToken stS .STRING value, stS)
  else if isDigitC c then
    -- `current_--` then `tokenizeNumber`: rescan from the digit
    let (tt, value, srcN, posN) := scanNumber st2.src st2.pos
    let stN := { st2 with src := srcN, pos := posN }
    .ok (makeToken stN tt value, stN)
  else if isAlphaC c then
    let (tt, value, srcI, posI) := scanIdentifier st2.src st2.pos
    let stI := { st2 with src := srcI, pos := posI }
    .ok (makeToken stI tt value, stI)
  else
    -- two-character operators: peek at the following character
    let next : Char := match rest with | [] => '\x00' | n :: _ => n
    let adv2 : LexState :=
      match rest with
      | [] => st3
      | n :: r2 => { st3 with src := r2, pos := advancePos st3.pos n }
    if c = '+' then
      if next = '=' then .ok (makeToken adv2 .PLUS_ASSIGN "+=", adv2)
      else .ok (makeToken st3 .PLUS "+", st3)
    else if c = '-' then
      if next = '=' then .ok (makeToken adv2 .MINUS_ASSIGN "-=", adv2)
      else .ok (makeToken st3 .MINUS "-", st3)
    else if c = '*' then
      if next = '*' then .ok (makeToken adv2 .POWER "**", adv2)
      else if next = '=' then .ok (makeToken adv2 .MULT_ASSIGN "*=", adv2)
      else .ok (makeToken st3 .MULTIPLY "*", st3)
    else if c = '/' then
      if next = '/' then .ok (makeToken adv2 .FLOOR_DIVIDE "//", adv2)
      else if next = '=' then .ok (makeToken adv2 .DIV_ASSIGN "/=", adv2)
      else .ok (makeToken st3 .DIVIDE "/", st3)
    else if c = '=' then
      if next = '=' then .ok (makeToken adv2 .EQUAL "==", adv2)
      else .ok (makeToken st3 .ASSIGN "=", st3)
    else if c = '!' then
      if next = '=' then .ok (makeToken adv2 .NOT_EQUAL "!=", adv2)
      else .error (lexError st3 "Unexpected character: !")
    else if c = '<' then
      if next = '=' then .ok (makeToken adv2 .LESS_EQUAL "<=", adv2)
      else .ok (makeToken st3 .LESS "<", st3)
    else if c = '>' then
      if next = '=' then .ok (makeToken adv2 .GREATER_EQUAL ">=", adv2)
      else .ok (makeToken st3 .GREATER ">", st3)
    else if c = '%' then .ok (makeToken st3 .MODULO "%", st3)
    else if c = '(' then .ok (makeToken st3 .LPAREN "(", st3)
    else if c = ')' then .ok (makeToken st3 .RPAREN ")", st3)
    else if c = '[' then .ok (makeToken st3 .LBRACKET "[", st3)
    else if c = ']' then .ok (makeToken st3 .RBRACKET "]", st3)
    else if c = '\x7b' then .ok (makeToken st3 .LBRACE "\x7b", st3)
    else if c = '\x7d' then .ok (makeToken st3 .RBRACE "\x7d", st3)
    else if c = ',' then .ok (makeToken st3 .COMMA ",", st3)
    else if c = ':' then .ok (makeToken st3 .COLON ":", st3)
    else if c = ';' then .ok (makeToken st3 .SEMICOLON ";", st3)
    else if c = '.' then .ok (makeToken st3 .DOT ".", st3)
    else .error (lexError st3 ("Unexpected character: " ++ String.mk [c]))

mutual

/-- `Lexer::nextToken`.  The fuel only feeds the self-recursion after a
comment; every other path is direct. -/
def nextToken : Nat → LexState → Except LexErr (Token × LexState)
  | 0, _ => .error .fuelOut
  | fuel + 1, st0 =>
    if st0.src.isEmpty then .ok (makeToken st0 .EOF_TOKEN "", st0)
    else if st0.atLineStart then
      -- Handle indentation at start of line
      let stA := { st0 with atLineStart := false }
      match handleIndentation stA with
      | .error e => .error e
      | .ok ([], stB) => nextTokenBody fuel stB
      | .ok (t :: _, stB) =>
        -- Return first indentation token; the rest are dropped
        .ok (t, stB)
    else nextTokenBody fuel st0

/-- The part of `Lexer::nextToken` after the indentation handling
(from `skipWhitespace()` onward). -/
def nextTokenBody : Nat → LexState → Except LexErr (Token × LexState)
  | 0, _ => .error .fuelOut
  | fuel + 1, st1 =>
    let (src2, pos2) := skipWs st1.src st1.pos
    let st2 := { st1 with src := src2, pos := pos2 }
    match st2.src with
    | [] => .ok (makeToken st2 .EOF_TOKEN "", st2)
    | c :: rest =>
      let st3 := { st2 with src := rest, pos := advancePos st2.pos c }
      if c = '\n' then
        let st4 := { st3 with atLineStart := true }
        .ok (makeToken st4 .NEWLINE "\n", st4)
      else if c = '#' then
        let (srcC, posC) := skipCommentChars st3.src st3.pos
        nextToken fuel { st3 with src := srcC, pos := posC }
      else scanSimpleToken c rest st2 st3

end

/-- The main loop of `Lexer::tokenize`: accumulate tokens while not at the
end of input, stopping early when an `EOF_TOKEN` is produced. -/
def tokenizeLoop : Nat → LexState → List Token → Except LexErr (List Token × LexState)
  | 0, _, _ => .error .fuelOut
  | fuel + 1, st, acc =>
    if st.src.isEmpty then .ok (acc, st)
    else
      match nextToken (fuel + 1) st with
      | .error e => .error e
      | .ok (tok, st') =>
        if tok.type = .EOF_TOKEN then .ok (acc ++ [tok], st')
        else tokenizeLoop fuel st' (acc ++ [tok])

/-- The trailing DEDENT flush of `Lexer::tokenize`: pop the indent stack
down to one entry, emitting one DEDENT per pop (positions are all the
current one; the lexer has consumed the whole source at this point). -/
def flushDedents (stack : List Nat) (p : Position) : List Token :=
  match stack with
  | [] => []
  | [_] => []
  | _ :: rest => ⟨.DEDENT, "", p⟩ :: flushDedents rest p

/-- The final EOF guarantee of `Lexer::tokenize`: append an `EOF_TOKEN`
unless the stream is nonempty and already ends with one. -/
def ensureEof (toks : List Token) (p : Position) : List Token :=
  match toks.getLast? with
  | none => [⟨.EOF_TOKEN, "", p⟩]
  | some t =>
    if t.type = .EOF_TOKEN then toks
    else toks ++ [⟨.EOF_TOKEN, "", p⟩]

/-- One non-final iteration of the `Lexer::tokenize` loop. -/
theorem tokenizeLoop_step (f : Nat) (st st' : LexState) (acc : List Token)
    (tok : Token)
    (hne : st.src.isEmpty = false)
    (hnt : nextToken (f + 1) st = .ok (tok, st'))
    (hty : ¬ tok.type = .EOF_TOKEN) :
    tokenizeLoop (f + 1) st acc = tokenizeLoop f st' (acc ++ [tok]) := by
  simp [tokenizeLoop, hne, hnt, hty]

/-- The final iteration of the `Lexer::tokenize` loop: an `EOF_TOKEN` was
produced inside the loop. -/
theorem tokenizeLoop_eof (f : Nat) (st st' : LexState) (acc : List Token)
    (tok : Token)
    (hne : st.src.isEmpty = false)
    (hnt : nextToken (f + 1) st = .ok (tok, st'))
    (hty : tok.type = .EOF_TOKEN) :
    tokenizeLoop (f + 1) st acc = .ok (acc ++ [tok], st') := by
  simp [tokenizeLoop, hne, hnt, hty]

/-- Loop exit when the input is exhausted. -/
theorem tokenizeLoop_done (f : Nat) (st : LexState) (acc : List Token)
    (hem : st.src.isEmpty = true) :
    tokenizeLoop (f + 1) st acc = .ok (acc, st) := by
  simp [tokenizeLoop, hem]

/-- The initial lexer state (`Lexer::Lexer`). -/
def initLexState (source : String) : LexState :=
  { src := source.data, pos := ⟨1, 1⟩, atLineStart := true, stack := [0] }

/-- `Lexer::tokenize` on a whole source string. -/
def tokenize (fuel : Nat) (source : String) : Except LexErr (List Token) :=
  match tokenizeLoop fuel (initLexState source) [] with
  | .error e => .error e
  | .ok (toks, st) =>
    .ok (ensureEof (toks ++ flushDedents st.stack st.pos) st.pos)

/-- Number of tokens of a given kind in a stream. -/
def countTok (t : TokenType) (toks : List Token) : Nat :=
  (toks.filter (fun tok => decide (tok.type = t))).length

/-! ## AST (`include/caesar/ast.h`)

Node classes become inductive constructors.  Each C++ node carries an
`ASTNode::position` member; the parser leaves it at its default `(1,1)` for
literal nodes and blocks and sets it explicitly elsewhere, so the model
stores a `Position` argument exactly where the parser sets one.
`IdentifierExpression` declares its own `position` member that shadows the
base-class one (which stays at its default); `Expr.basePos` below returns
the base-class member, which is what `Parser::expressionStatement` reads. -/

/-- Expression nodes (`ast.h`). -/
inductive Expr where
  | literal (value : Token)
  | ident (name : String) (pos : Position)
  | binary (left : Expr) (op : TokenType) (right : Expr) (pos : Position)
  | unaryE (op : TokenType) (operand : Expr) (pos : Position)
  | callE (callee : Expr) (args : List Expr) (pos : Position)
  | member (obj : Expr) (name : String) (pos : Position)
  | assignE (target : Expr) (value : Expr) (op : TokenType) (pos : Position)
  | listE (elems : List Expr) (pos : Position)
  | dictE (pairs : List (Expr × Expr)) (pos : Position)

/-- The inherited `ASTNode::position` of an expression as the C++ code
reads it through a base-class pointer: default `(1,1)` for literals (whose
constructor never sets it) and for identifiers (whose own `position` member
shadows the base one, which stays default). -/
def Expr.basePos : Expr → Position
  | .literal _ => ⟨1, 1⟩
  | .ident _ _ => ⟨1, 1⟩
  | .binary _ _ _ p => p
  | .unaryE _ _ p => p
  | .callE _ _ p => p
  | .member _ _ p => p
  | .assignE _ _ _ p => p
  | .listE _ p => p
  | .dictE _ p => p

/-- `struct Parameter` from `ast.h`: name plus optional default-value
expression (`default_value`, null when absent). -/
structure Param where
  name : String
  defaultValue : Option Expr

/-- Statement nodes (`ast.h`).  `varName` is `ForStatement::variable`. -/
inductive Stmt where
  | exprStmt (e : Expr) (pos : Position)
  | block (stmts : List Stmt) (pos : Position)
  | ifS (cond : Expr) (thenB : Stmt) (elseB : Option Stmt) (pos : Position)
  | whileS (cond : Expr) (body : Stmt) (pos : Position)
  | forS (varName : String) (iterable : Expr) (body : Stmt) (pos : Position)
  | funcDef (name : String) (params : List Param) (body : Stmt) (pos : Position)
  | classDef (name : String) (bases : List String) (body : Stmt) (pos : Position)
  | returnS (value : Option Expr) (pos : Position)
  | breakS (pos : Position)
  | continueS (pos : Position)
  | passS (pos : Position)

/-! ## Parser (`src/parser/parser.cpp`)

The C++ `Parser` object holds the token vector and a cursor `current_`;
parsing functions throw `ParserException` on mismatch.  The model threads a
`PState` and returns `Except`.  All recursion is fuelled. -/

/-- Parser error outcome: `fuelOut` is fuel exhaustion of the model,
`perr` a thrown `ParserException` (message without the class prefix). -/
inductive PErr where
  | fuelOut
  | perr (msg : String)
  deriving DecidableEq, Repr

/-- Parser state: the token vector and the cursor `current_`. -/
structure PState where
  tokens : List Token
  current : Nat

/-- The static EOF token `Parser::peek` returns past the end
(`Position()` defaults to line 1, column 1). -/
def eofDummy : Token := ⟨.EOF_TOKEN, "", ⟨1, 1⟩⟩

/-- The static UNKNOWN token `Parser::previous` returns at index 0. -/
def unknownDummy : Token := ⟨.UNKNOWN, "", ⟨1, 1⟩⟩

/-- `Parser::peek`. -/
def peekP (st : PState) : Token := st.tokens.getD st.current eofDummy

/-- `Parser::previous`. -/
def previousP (st : PState) : Token :=
  if st.current = 0 then unknownDummy
  else st.tokens.getD (st.current - 1) unknownDummy

/-- `Parser::isAtEnd`. -/
def isAtEndP (st : PState) : Bool :=
  st.tokens.length ≤ st.current || (peekP st).type = .EOF_TOKEN

/-- `Parser::advance`: move the cursor unless at the end, return the
now-previous token. -/
def advanceP (st : PState) : Token × PState :=
  let st' := if isAtEndP st then st else { st with current := st.current + 1 }
  (previousP st', st')

/-- `Parser::check`. -/
def checkP (st : PState) (t : TokenType) : Bool :=
  if isAtEndP st then false else (peekP st).type = t

/-- `Parser::match` on a list of candidate types. -/
def matchTok (st : PState) : List TokenType → Bool × PState
  | [] => (false, st)
  | t :: rest =>
    if checkP st t then (true, (advanceP st).2) else matchTok st rest

/-- `Parser::error`: the `ParserException` message, built from `peek()`. -/
def parseErr (st : PState) (msg : String) : PErr :=
  let tok := peekP st
  .perr (msg ++ " at line " ++ toString tok.position.line ++
         ", column " ++ toString tok.position.column ++
         " (got '" ++ tok.value ++ "')")

/-- `Parser::consume`. -/
def consumeP (st : PState) (t : TokenType) (msg : String) :
    Except PErr (Token × PState) :=
  if checkP st t then .ok (advanceP st) else .error (parseErr st msg)

/-- The loop of `Parser::skipNewlines`; the fuel `tokens.length` always
suffices because every iteration advances the cursor. -/
def skipNewlinesAux : Nat → PState → PState
  | 0, st => st
  | f + 1, st =>
    if checkP st .NEWLINE then skipNewlinesAux f (advanceP st).2 else st

/-- `Parser::skipNewlines`. -/
def skipNewlinesP (st : PState) : PState := skipNewlinesAux st.tokens.length st

mutual

/-- `Parser::program`. -/
def programP : Nat → PState → Except PErr (List Stmt × PState)
  | 0, _ => .error .fuelOut
  | f + 1, st => programLoop f (skipNewlinesP st) []

/-- The statement loop of `Parser::program`. -/
def programLoop : Nat → PState → List Stmt → Except PErr (List Stmt × PState)
  | 0, _, _ => .error .fuelOut
  | f + 1, st, acc =>
    if isAtEndP st then .ok (acc, st)
    else do
      let (s, st) ← statementP f st
      programLoop f (skipNewlinesP st) (acc ++ [s])

/-- `Parser::statement`. -/
def statementP : Nat → PState → Except PErr (Stmt × PState)
  | 0, _ => .error .fuelOut
  | f + 1, st =>
    let (m, st') := matchTok st [.DEF]
    if m then functionDefinitionP f st' else
    let (m, st') := matchTok st [.IF]
    if m then ifStatementP f st' else
    let (m, st') := matchTok st [.WHILE]
    if m then whileStatementP f st' else
    let (m, st') := matchTok st [.FOR]
    if m then forStatementP f st' else
    let (m, st') := matchTok st [.RETURN]
    if m then returnStatementP f st' else
    expressionStatementP f st

/-- `Parser::functionDefinition` (the `def` keyword is already consumed).
The C++ collects plain `std::string` parameter names — only `IDENTIFIER`
and `COMMA` tokens are consumed in the list — and the stored parameters
carry no default expressions. -/
def functionDefinitionP : Nat → PState → Except PErr (Stmt × PState)
  | 0, _ => .error .fuelOut
  | f + 1, st => do
    let (nameTok, st) ← consumeP st .IDENTIFIER "Expected function name"
    let (_, st) ← consumeP st .LPAREN "Expected '(' after function name"
    let (params, st) ←
      if checkP st .RPAREN then .ok (([] : List String), st)
      else paramLoop f st []
    let (_, st) ← consumeP st .RPAREN "Expected ')' after parameters"
    let (_, st) ← consumeP st .COLON "Expected ':' after function signature"
    let (_, st) ← consumeP st .NEWLINE "Expected newline after ':'"
    let (body, st) ← blockStatementP f st
    .ok (.funcDef nameTok.value (params.map fun n => ⟨n, none⟩) body
           nameTok.position, st)

/-- The do-while parameter loop of `Parser::functionDefinition`. -/
def paramLoop : Nat → PState → List String → Except PErr (List String × PState)
  | 0, _, _ => .error .fuelOut
  | f + 1, st, acc => do
    let (tok, st) ← consumeP st .IDENTIFIER "Expected parameter name"
    let (m, st') := matchTok st [.COMMA]
    if m then paramLoop f st' (acc ++ [tok.value])
    else .ok (acc ++ [tok.value], st')

/-- `Parser::ifStatement`. -/
def ifStatementP : Nat → PState → Except PErr (Stmt × PState)
  | 0, _ => .error .fuelOut
  | f + 1, st => do
    let (cond, st) ← expressionP f st
    let (_, st) ← consumeP st .COLON "Expected ':' after if condition"
    let (_, st) ← consumeP st .NEWLINE "Expected newline after ':'"
    let (thenB, st) ← blockStatementP f st
    let (m, st') := matchTok st [.ELSE]
    if m then do
      let (_, st2) ← consumeP st' .COLON "Expected ':' after else"
      let (_, st2) ← consumeP st2 .NEWLINE "Expected newline after ':'"
      let (elseB, st2) ← blockStatementP f st2
      .ok (.ifS cond thenB (some elseB) (previousP st2).position, st2)
    else .ok (.ifS cond thenB none (previousP st').position, st')

/-- `Parser::whileStatement`. -/
def whileStatementP : Nat → PState → Except PErr (Stmt × PState)
  | 0, _ => .error .fuelOut
  | f + 1, st => do
    let (cond, st) ← expressionP f st
    let (_, st) ← consumeP st .COLON "Expected ':' after while condition"
    let (_, st) ← consumeP st .NEWLINE "Expected newline after ':'"
    let (body, st) ← blockStatementP f st
    .ok (.whileS cond body (previousP st).position, st)

/-- `Parser::forStatement`. -/
def forStatementP : Nat → PState → Except PErr (Stmt × PState)
  | 0, _ => .error .fuelOut
  | f + 1, st => do
    let (varTok, st) ← consumeP st .IDENTIFIER "Expected variable name in for loop"
    let (_, st) ← consumeP st .IN "Expected 'in' after for variable"
    let (iter, st) ← expressionP f st
    let (_, st) ← consumeP st .COLON "Expected ':' after for expression"
    let (_, st) ← consumeP st .NEWLINE "Expected newline after ':'"
    let (body, st) ← blockStatementP f st
    .ok (.forS varTok.value iter body varTok.position, st)

/-- `Parser::returnStatement` (the `return` keyword is already consumed,
so `previous()` is that keyword). -/
def returnStatementP : Nat → PState → Except PErr (Stmt × PState)
  | 0, _ => .error .fuelOut
  | f + 1, st =>
    let pos := (previousP st).position
    if !checkP st .NEWLINE && !isAtEndP st then do
      let (v, st) ← expressionP f st
      .ok (.returnS (some v) pos, st)
    else .ok (.returnS none pos, st)

/-- `Parser::blockStatement`. -/
def blockStatementP : Nat → PState → Except PErr (Stmt × PState)
  | 0, _ => .error .fuelOut
  | f + 1, st => do
    let (_, st) ← consumeP st .INDENT "Expected indented block"
    let (stmts, st) ← blockLoop f st []
    if checkP st .DEDENT then do
      let (_, st') ← consumeP st .DEDENT "Expected dedent to close block"
      .ok (.block stmts ⟨1, 1⟩, st')
    else .ok (.block stmts ⟨1, 1⟩, st)

/-- The statement loop of `Parser::blockStatement`. -/
def blockLoop : Nat → PState → List Stmt → Except PErr (List Stmt × PState)
  | 0, _, _ => .error .fuelOut
  | f + 1, st, acc =>
    if !checkP st .DEDENT && !isAtEndP st then do
      let (s, st) ← statementP f st
      blockLoop f (skipNewlinesP st) (acc ++ [s])
    else .ok (acc, st)

/-- `Parser::expressionStatement`. -/
def expressionStatementP : Nat → PState → Except PErr (Stmt × PState)
  | 0, _ => .error .fuelOut
  | f + 1, st => do
    let (e, st) ← expressionP f st
    .ok (.exprStmt e e.basePos, st)

/-- `Parser::expression`. -/
def expressionP : Nat → PState → Except PErr (Expr × PState)
  | 0, _ => .error .fuelOut
  | f + 1, st => assignmentP f st

/-- `Parser::assignment` (right-associative; the target shape is not
checked). -/
def assignmentP : Nat → PState → Except PErr (Expr × PState)
  | 0, _ => .error .fuelOut
  | f + 1, st => do
    let (e, st) ← logicalOrP f st
    let (m, st') := matchTok st [.ASSIGN]
    if m then do
      let (v, st2) ← assignmentP f st'
      .ok (.assignE e v .ASSIGN (previousP st2).position, st2)
    else .ok (e, st)

/-- `Parser::logicalOr`. -/
def logicalOrP : Nat → PState → Except PErr (Expr × PState)
  | 0, _ => .error .fuelOut
  | f + 1, st => do
    let (e, st) ← logicalAndP f st
    orLoop f e st

/-- The `or` loop of `Parser::logicalOr`. -/
def orLoop : Nat → Expr → PState → Except PErr (Expr × PState)
  | 0, _, _ => .error .fuelOut
  | f + 1, e, st =>
    let (m, st') := matchTok st [.OR]
    if m then do
      let op := (previousP st').type
      let (r, st2) ← logicalAndP f st'
      orLoop f (.binary e op r (previousP st2).position) st2
    else .ok (e, st)

/-- `Parser::logicalAnd`. -/
def logicalAndP : Nat → PState → Except PErr (Expr × PState)
  | 0, _ => .error .fuelOut
  | f + 1, st => do
    let (e, st) ← equalityP f st
    andLoop f e st

/-- The `and` loop of `Parser::logicalAnd`. -/
def andLoop : Nat → Expr → PState → Except PErr (Expr × PState)
  | 0, _, _ => .error .fuelOut
  | f + 1, e, st =>
    let (m, st') := matchTok st [.AND]
    if m then do
      let op := (previousP st').type
      let (r, st2) ← equalityP f st'
      andLoop f (.binary e op r (previousP st2).position) st2
    else .ok (e, st)

/-- `Parser::equality`. -/
def equalityP : Nat → PState → Except PErr (Expr × PState)
  | 0, _ => .error .fuelOut
  | f + 1, st => do
    let (e, st) ← comparisonP f st
    eqLoop f e st

/-- The `== !=` loop of `Parser::equality`. -/
def eqLoop : Nat → Expr → PState → Except PErr (Expr × PState)
  | 0, _, _ => .error .fuelOut
  | f + 1, e, st =>
    let (m, st') := matchTok st [.NOT_EQUAL, .EQUAL]
    if m then do
      let op := (previousP st').type
      let (r, st2) ← comparisonP f st'
      eqLoop f (.binary e op r (previousP st2).position) st2
    else .ok (e, st)

/-- `Parser::comparison`. -/
def comparisonP : Nat → PState → Except PErr (Expr × PState)
  | 0, _ => .error .fuelOut
  | f + 1, st => do
    let (e, st) ← termP f st
    compLoop f e st

/-- The relational loop of `Parser::comparison`. -/
def compLoop : Nat → Expr → PState → Except PErr (Expr × PState)
  | 0, _, _ => .error .fuelOut
  | f + 1, e, st =>
    let (m, st') := matchTok st [.GREATER, .GREATER_EQUAL, .LESS, .LESS_EQUAL]
    if m then do
      let op := (previousP st').type
      let (r, st2) ← termP f st'
      compLoop f (.binary e op r (previousP st2).position) st2
    else .ok (e, st)

/-- `Parser::term`. -/
def termP : Nat → PState → Except PErr (Expr × PState)
  | 0, _ => .error .fuelOut
  | f + 1, st => do
    let (e, st) ← factorP f st
    termLoop f e st

/-- The `+ -` loop of `Parser::term`. -/
def termLoop : Nat → Expr → PState → Except PErr (Expr × PState)
  | 0, _, _ => .error .fuelOut
  | f + 1, e, st =>
    let (m, st') := matchTok st [.MINUS, .PLUS]
    if m then do
      let op := (previousP st').type
      let (r, st2) ← factorP f st'
      termLoop f (.binary e op r (previousP st2).position) st2
    else .ok (e, st)

/-- `Parser::factor`. -/
def factorP : Nat → PState → Except PErr (Expr × PState)
  | 0, _ => .error .fuelOut
  | f + 1, st => do
    let (e, st) ← powerP f st
    factorLoop f e st

/-- The `* / % //` loop of `Parser::factor`. -/
def factorLoop : Nat → Expr → PState → Except PErr (Expr × PState)
  | 0, _, _ => .error .fuelOut
  | f + 1, e, st =>
    let (m, st') := matchTok st [.DIVIDE, .MULTIPLY, .MODULO, .FLOOR_DIVIDE]
    if m then do
      let op := (previousP st').type
      let (r, st2) ← powerP f st'
      factorLoop f (.binary e op r (previousP st2).position) st2
    else .ok (e, st)

/-- `Parser::power` (right-associative, single `if`). -/
def powerP : Nat → PState → Except PErr (Expr × PState)
  | 0, _ => .error .fuelOut
  | f + 1, st => do
    let (e, st) ← unaryP f st
    let (m, st') := matchTok st [.POWER]
    if m then do
      let op := (previousP st').type
      let (r, st2) ← powerP f st'
      .ok (.binary e op r (previousP st2).position, st2)
    else .ok (e, st)

/-- `Parser::unary`. -/
def unaryP : Nat → PState → Except PErr (Expr × PState)
  | 0, _ => .error .fuelOut
  | f + 1, st =>
    let (m, st') := matchTok st [.NOT, .MINUS]
    if m then do
      let op := (previousP st').type
      let (r, st2) ← unaryP f st'
      .ok (.unaryE op r (previousP st2).position, st2)
    else callP f st

/-- `Parser::call`. -/
def callP : Nat → PState → Except PErr (Expr × PState)
  | 0, _ => .error .fuelOut
  | f + 1, st => do
    let (e, st) ← primaryP f st
    callLoop f e st

/-- The postfix-call loop of `Parser::call`. -/
def callLoop : Nat → Expr → PState → Except PErr (Expr × PState)
  | 0, _, _ => .error .fuelOut
  | f + 1, e, st =>
    let (m, st') := matchTok st [.LPAREN]
    if m then do
      let (e', st2) ← finishCallP f e st'
      callLoop f e' st2
    else .ok (e, st)

/-- `Parser::primary`. -/
def primaryP : Nat → PState → Except PErr (Expr × PState)
  | 0, _ => .error .fuelOut
  | f + 1, st =>
    let (m, st') := matchTok st [.BOOLEAN, .INTEGER, .FLOAT, .STRING]
    if m then .ok (.literal (previousP st'), st')
    else
      let (m, st') := matchTok st [.IDENTIFIER]
      if m then .ok (.ident (previousP st').value (previousP st').position, st')
      else
        let (m, st') := matchTok st [.LPAREN]
        if m then do
          let (e, st2) ← expressionP f st'
          let (_, st3) ← consumeP st2 .RPAREN "Expected ')' after expression"
          .ok (e, st3)
        else .error (parseErr st "Expected expression")

/-- `Parser::finishCall` (the opening `(` is already consumed). -/
def finishCallP : Nat → Expr → PState → Except PErr (Expr × PState)
  | 0, _, _ => .error .fuelOut
  | f + 1, callee, st => do
    let (args, st) ←
      if checkP st .RPAREN then .ok (([] : List Expr), st)
      else argsLoop f st []
    let (paren, st) ← consumeP st .RPAREN "Expected ')' after arguments"
    .ok (.callE callee args paren.position, st)

/-- The do-while argument loop of `Parser::finishCall`. -/
def argsLoop : Nat → PState → List Expr → Except PErr (List Expr × PState)
  | 0, _, _ => .error .fuelOut
  | f + 1, st, acc => do
    let (e, st) ← expressionP f st
    let (m, st') := matchTok st [.COMMA]
    if m then argsLoop f st' (acc ++ [e])
    else .ok (acc ++ [e], st')

end

/-- `Parser::parse` on a token vector. -/
def parseProgram (fuel : Nat) (tokens : List Token) : Except PErr (List Stmt) :=
  match programP fuel ⟨tokens, 0⟩ with
  | .error e => .error e
  | .ok (stmts, _) => .ok stmts

/-! ## Runtime values and environments (`include/caesar/interpreter.h`,
`src/interpreter/interpreter.cpp`)

`Value` is the runtime variant.  The C++ code in `interpreter.cpp` also
stores and matches `std::shared_ptr<CallableFunction>` values (a
declaration plus a captured environment); the model carries the
function-definition data and the captured environment's heap index.
Environments (`class Environment`) form a parent chain with shared mutable
ownership; the model keeps them in a heap (a list indexed by creation
order) so that closures can share and mutate scopes. -/

/-- `FunctionDefinition` data as held by `CallableFunction::declaration`. -/
structure FuncDecl where
  name : String
  params : List Param
  body : Stmt

/-- The runtime `Value` variant. -/
inductive Value where
  | nullV
  | boolV (b : Bool)
  | intV (i : Int)
  | floatV (f : Float)
  | strV (s : String)
  | funcV (decl : FuncDecl) (closure : Nat)

/-- One `Environment`: parent link and `variables` map. -/
structure EnvRec where
  parent : Option Nat
  vars : List (String × Value)

/-- The interpreter's mutable state: all environments ever created (new
ones are appended, so parent indices are always smaller than child
indices), the current-environment index (`Interpreter::environment`), the
lines printed so far by `print` (standard output), and the `last_value`
scratch slot. -/
structure IState where
  heap : List EnvRec
  cur : Nat
  output : List String
  lastValue : Value

/-- Non-value outcomes of evaluation, each carrying the state at the point
of the throw (C++ exceptions do not roll back side effects):
`fuelOut` is model-fuel exhaustion; `rte` is `RuntimeError`; `brk`, `cont`
and `ret` are `BreakException`, `ContinueException` and `ReturnException`;
`stdExc` is any other `std::exception` (`std::stoll`/`std::stod`/`std::stoi`
failures), which no interpreter-level handler catches. -/
inductive Ctl where
  | fuelOut
  | rte (msg : String)
  | brk
  | cont
  | ret (v : Value)
  | stdExc (msg : String)

/-- `std::unordered_map::operator[]` assignment: replace or insert. -/
def varsSet : List (String × Value) → String → Value → List (String × Value)
  | [], n, v => [(n, v)]
  | (k, w) :: rest, n, v =>
    if k = n then (k, v) :: rest else (k, w) :: varsSet rest n v

/-- Map lookup in one scope. -/
def varsGet : List (String × Value) → String → Option Value
  | [], _ => none
  | (k, w) :: rest, n => if k = n then some w else varsGet rest n

/-- `Environment::define`: write in the scope `envId` unconditionally
(the index is always valid for states produced by the interpreter). -/
def defineVar (heap : List EnvRec) (envId : Nat) (n : String) (v : Value) :
    List EnvRec :=
  match heap[envId]? with
  | none => heap
  | some r => heap.set envId { r with vars := varsSet r.vars n v }

/-- The parent-chain walk of `Environment::get`.  The fuel `envId + 1`
always suffices because parents are created before children, hence have
strictly smaller indices. -/
def envGetAux : Nat → List EnvRec → Nat → String → Except Ctl Value
  | 0, _, _, n => .error (.rte ("Undefined variable '" ++ n ++ "'"))
  | f + 1, heap, envId, n =>
    match heap[envId]? with
    | none => .error (.rte ("Undefined variable '" ++ n ++ "'"))
    | some r =>
      match varsGet r.vars n with
      | some v => .ok v
      | none =>
        match r.parent with
        | some p => envGetAux f heap p n
        | none => .error (.rte ("Undefined variable '" ++ n ++ "'"))

/-- `Environment::get`. -/
def envGet (heap : List EnvRec) (envId : Nat) (n : String) : Except Ctl Value :=
  envGetAux (envId + 1) heap envId n

/-- `int64_t` conversion to `double`. -/
def intToFloat : Int → Float
  | .ofNat n => Float.ofNat n
  | .negSucc n => -(Float.ofNat (n + 1))

/-! ### C string/number library models -/

/-- `std::string::substr(pos, len)` (clamping, as the C++ function does
when the request overruns the string). -/
def cppSubstr (s : String) (pos len : Nat) : String :=
  ⟨(s.data.drop pos).take len⟩

/-- `std::string::substr(pos)` to the end of the string. -/
def cppSubstrFrom (s : String) (pos : Nat) : String := ⟨s.data.drop pos⟩

/-- `std::string::find(char, start)`: smallest index `≥ start` holding the
character, if any. -/
def findIdxFrom : List Char → Char → Nat → Option Nat
  | [], _, _ => none
  | c :: rest, t, i => if c = t then some i else findIdxFrom rest t (i + 1)

/-- `s.find(c, start)`. -/
def cppFindFrom (s : String) (c : Char) (start : Nat) : Option Nat :=
  findIdxFrom (s.data.drop start) c start

/-- Digit-run accumulator for the `strtoll` family: consumes leading
decimal digits. -/
def digitsAcc : List Char → Nat → Bool → Option (Nat × List Char)
  | [], acc, seen => if seen then some (acc, []) else none
  | c :: rest, acc, seen =>
    if isDigitC c then digitsAcc rest (acc * 10 + (c.toNat - '0'.toNat)) true
    else if seen then some (acc, c :: rest) else none

/-- Failure modes of `std::stoll`/`std::stoi`. -/
inductive StoErr where
  | invalidArg
  | outOfRange
  deriving DecidableEq, Repr

/-- The common core of `std::stoll`/`std::stoi`: skip whitespace, parse an
optional sign and a non-empty digit run (ignoring any trailing
characters), and range-check against the given bound `|v| < 2^(w-1)`
(with the asymmetric two's-complement minimum). -/
def strtoCore (w : Nat) (s : String) : Except StoErr Int :=
  let cs := s.data.dropWhile (fun c => isSpaceC c)
  let (neg, cs) :=
    match cs with
    | '-' :: rest => (true, rest)
    | '+' :: rest => (false, rest)
    | _ => (false, cs)
  match digitsAcc cs 0 false with
  | none => .error .invalidArg
  | some (n, _) =>
    let v : Int := if neg then -(n : Int) else (n : Int)
    if v < -(2 ^ (w - 1)) || (2 ^ (w - 1) - 1) < v then .error .outOfRange
    else .ok v

/-- `std::stoll` (64-bit). -/
def cppStoll (s : String) : Except StoErr Int := strtoCore 64 s

/-- `std::stoi` (32-bit `int`, used by `ForStatement`'s range decoding). -/
def cppStoi (s : String) : Except StoErr Int := strtoCore 32 s

/-- Decimal mantissa/exponent parse behind `std::stod` for the forms the
lexer and the `float` builtin feed it: optional sign, digits, optional
point and fraction digits (exponent forms are not modelled; no claim
depends on float values). -/
def cppStod (s : String) : Except StoErr Float :=
  let cs := s.data.dropWhile (fun c => isSpaceC c)
  let (neg, cs) :=
    match cs with
    | '-' :: rest => (true, rest)
    | '+' :: rest => (false, rest)
    | _ => (false, cs)
  match digitsAcc cs 0 false with
  | none => .error .invalidArg
  | some (n, rest) =>
    let (mant, decs) :=
      match rest with
      | '.' :: frac =>
        match digitsAcc frac n true with
        | some (m, after) => (m, (frac.length - after.length))
        | none => (n, 0)
      | _ => (n, 0)
    let f := Float.ofScientific mant true decs
    .ok (if neg then -f else f)

/-- Truncation of `static_cast<int64_t>(double)` (toward zero); the C++
cast is undefined for out-of-range values, which the model saturates. -/
def cppTruncToInt (f : Float) : Int :=
  if f < 0 then -(Int.ofNat (-f).floor.toUInt64.toNat)
  else Int.ofNat f.floor.toUInt64.toNat

/-- Rendering of a `double` by `std::to_string` (the model abstracts the
fixed-six-decimals formatting; no claim depends on it). -/
def cppFloatRepr (f : Float) : String := toString f

/-! ### Interpreter helpers (`interpreter.cpp`) -/

/-- The names registered by `Interpreter::initializeBuiltins`. -/
def isBuiltinName (n : String) : Bool :=
  n = "print" || n = "range" || n = "len" || n = "str" ||
  n = "int" || n = "float" || n = "type" || n = "abs"

/-- `Interpreter::valueToString` (also the printing visitor's lambda and
the `str` builtin's conversion, which are textually identical in the
source). -/
def valueToString : Value → String
  | .nullV => "None"
  | .boolV b => if b then "True" else "False"
  | .strV s => s
  | .intV i => toString i
  | .floatV f => cppFloatRepr f
  | .funcV decl _ => "<function " ++ decl.name ++ ">"

/-- `Interpreter::isTruthy`. -/
def isTruthy : Value → Bool
  | .nullV => false
  | .boolV b => b
  | .intV i => decide (i ≠ 0)
  | .floatV f => !(f == 0.0)
  | .strV s => !s.isEmpty
  | .funcV _ _ => true

/-- `Interpreter::tokenToValue`.  `std::stoll`/`std::stod` failures are
uncaught here and escape as plain `std::exception`s. -/
def tokenToValue (tok : Token) : Except Ctl Value :=
  match tok.type with
  | .INTEGER =>
    match cppStoll tok.value with
    | .ok v => .ok (.intV v)
    | .error _ => .error (.stdExc "stoll")
  | .FLOAT =>
    match cppStod tok.value with
    | .ok f => .ok (.floatV f)
    | .error _ => .error (.stdExc "stod")
  | .STRING => .ok (.strV tok.value)
  | _ => .ok (.strV tok.value)

/-- String comparison `a < b` of `std::string` (lexicographic). -/
def strLtB (a b : String) : Bool := decide (a < b)

/-- The string-arm `switch` of `Interpreter::visit(BinaryExpression&)`,
reached when both operands are strings, and the final logical/failure
part reached otherwise. -/
def binStringOrLogical (op : TokenType) (l r : Value) : Except Ctl Value :=
  let logical : Except Ctl Value :=
    if op = .AND then .ok (.boolV (isTruthy l && isTruthy r))
    else if op = .OR then .ok (.boolV (isTruthy l || isTruthy r))
    else .error (.rte "Unsupported binary operation")
  match l, r with
  | .strV a, .strV b =>
    match op with
    | .PLUS => .ok (.strV (a ++ b))
    | .EQUAL => .ok (.boolV (a = b))
    | .NOT_EQUAL => .ok (.boolV (decide (a ≠ b)))
    | .LESS => .ok (.boolV (strLtB a b))
    | .LESS_EQUAL => .ok (.boolV (!strLtB b a))
    | .GREATER => .ok (.boolV (strLtB b a))
    | .GREATER_EQUAL => .ok (.boolV (!strLtB a b))
    | _ => logical
  | _, _ => logical

/-- Either numeric arm (`int64_t` widened to `double`, or `double`). -/
def numValue : Value → Option Float
  | .intV i => some (intToFloat i)
  | .floatV f => some f
  | _ => none

/-- The floating-point `switch` of `Interpreter::visit(BinaryExpression&)`,
reached when both operands are numeric and the integer arm did not apply,
falling through to the string/logical part otherwise. -/
def binFloatOrLater (op : TokenType) (l r : Value) : Except Ctl Value :=
  match numValue l, numValue r with
  | some a, some b =>
    match op with
    | .PLUS => .ok (.floatV (a + b))
    | .MINUS => .ok (.floatV (a - b))
    | .MULTIPLY => .ok (.floatV (a * b))
    | .DIVIDE =>
      if b == 0.0 then .error (.rte "Division by zero")
      else .ok (.floatV (a / b))
    | .EQUAL => .ok (.boolV (a == b))
    | .NOT_EQUAL => .ok (.boolV (!(a == b)))
    | .LESS => .ok (.boolV (decide (a < b)))
    | .LESS_EQUAL => .ok (.boolV (decide (a ≤ b)))
    | .GREATER => .ok (.boolV (decide (b < a)))
    | .GREATER_EQUAL => .ok (.boolV (decide (b ≤ a)))
    | _ => binStringOrLogical op l r
  | _, _ => binStringOrLogical op l r

/-- The full operator application of `Interpreter::visit(BinaryExpression&)`
on two already-evaluated operands: integer arm first, then float, then
string, then logical, then the unsupported-operation diagnostic. -/
def binOpValues (op : TokenType) (l r : Value) : Except Ctl Value :=
  match l, r with
  | .intV a, .intV b =>
    match op with
    | .PLUS => .ok (.intV (a + b))
    | .MINUS => .ok (.intV (a - b))
    | .MULTIPLY => .ok (.intV (a * b))
    | .DIVIDE =>
      if b = 0 then .error (.rte "Division by zero")
      else .ok (.floatV (intToFloat a / intToFloat b))
    | .MODULO =>
      if b = 0 then .error (.rte "Modulo by zero")
      else .ok (.intV (Int.tmod a b))
    | .EQUAL => .ok (.boolV (a = b))
    | .NOT_EQUAL => .ok (.boolV (decide (a ≠ b)))
    | .LESS => .ok (.boolV (decide (a < b)))
    | .LESS_EQUAL => .ok (.boolV (decide (a ≤ b)))
    | .GREATER => .ok (.boolV (decide (b < a)))
    | .GREATER_EQUAL => .ok (.boolV (decide (b ≤ a)))
    | _ => binFloatOrLater op l r
  | _, _ => binFloatOrLater op l r

/-- The body of `Interpreter::visit(UnaryExpression&)` after evaluating the
operand: negate an `int64_t`, pass everything else through unchanged; the
operator is never inspected. -/
def unaryResult : Value → Value
  | .intV n => .intV (-n)
  | v => v

/-- The builtin lambdas of `Interpreter::initializeBuiltins`, dispatched by
name.  `print` appends one line to the output; the others are pure except
for thrown `RuntimeError`s. -/
def applyBuiltin (n : String) (args : List Value) (st : IState) :
    Except (Ctl × IState) (Value × IState) :=
  if n = "print" then
    let line := String.intercalate " " (args.map valueToString)
    .ok (.nullV, { st with output := st.output ++ [line] })
  else if n = "range" then
    if args.isEmpty || 3 < args.length then .ok (.nullV, st)
    else
      let dflt : Int × Int × Int := (0, 0, 1)
      let (start, stop, step) :=
        match args with
        | [.intV e] => (0, e, 1)
        | [.intV s, .intV e] => (s, e, 1)
        | [.intV s, .intV e, .intV st3] => (s, e, st3)
        | _ => dflt
      .ok (.strV ("__range_" ++ toString start ++ "_" ++ toString stop ++
                  "_" ++ toString step), st)
  else if n = "len" then
    match args with
    | [.strV s] => .ok (.intV (s.utf8ByteSize : Int), st)
    | [_] => .error (.rte "object has no len()", st)
    | _ => .error (.rte "len() takes exactly one argument", st)
  else if n = "str" then
    match args with
    | [v] => .ok (.strV (valueToString v), st)
    | _ => .error (.rte "str() takes exactly one argument", st)
  else if n = "int" then
    match args with
    | [.intV i] => .ok (.intV i, st)
    | [.floatV f] => .ok (.intV (cppTruncToInt f), st)
    | [.strV s] =>
      if s = "True" then .ok (.intV 1, st)
      else if s = "False" then .ok (.intV 0, st)
      else
        match cppStoll s with
        | .ok v => .ok (.intV v, st)
        | .error _ =>
          .error (.rte ("invalid literal for int(): '" ++ s ++ "'"), st)
    | [.boolV b] => .ok (.intV (if b then 1 else 0), st)
    | [_] =>
      .error (.rte "int() argument must be a string, a bytes-like object or a number", st)
    | _ => .error (.rte "int() takes exactly one argument", st)
  else if n = "float" then
    match args with
    | [.floatV f] => .ok (.floatV f, st)
    | [.intV i] => .ok (.floatV (intToFloat i), st)
    | [.strV s] =>
      if s = "True" then .ok (.floatV 1.0, st)
      else if s = "False" then .ok (.floatV 0.0, st)
      else
        match cppStod s with
        | .ok f => .ok (.floatV f, st)
        | .error _ =>
          .error (.rte ("could not convert string to float: '" ++ s ++ "'"), st)
    | [.boolV b] => .ok (.floatV (if b then 1.0 else 0.0), st)
    | [_] => .error (.rte "float() argument must be a string or a number", st)
    | _ => .error (.rte "float() takes exactly one argument", st)
  else if n = "type" then
    match args with
    | [v] =>
      let s :=
        match v with
        | .nullV => "<class 'NoneType'>"
        | .boolV _ => "<class 'bool'>"
        | .strV _ => "<class 'str'>"
        | .intV _ => "<class 'int'>"
        | .floatV _ => "<class 'float'>"
        | .funcV _ _ => "<class 'function'>"
      .ok (.strV s, st)
    | _ => .error (.rte "type() takes exactly one argument", st)
  else if n = "abs" then
    match args with
    | [.intV v] => .ok (.intV (if v < 0 then -v else v), st)
    | [.floatV v] => .ok (.floatV (if v < 0.0 then -v else v), st)
    | [_] => .error (.rte "bad operand type for abs()", st)
    | _ => .error (.rte "abs() takes exactly one argument", st)
  else .error (.rte "Object is not callable", st)

/-- The initial interpreter state: one global environment with `__name__`
pre-bound (`Interpreter::Interpreter` / `initializeBuiltins`). -/
def initIState : IState :=
  { heap := [⟨none, [("__name__", .strV "__main__")]⟩],
    cur := 0, output := [], lastValue := .nullV }

/-! ### The evaluator (`interpreter.cpp` visitors)

`evalExpr` is `Interpreter::evaluate` (each expression visitor sets
`last_value` to its result, which `evaluate` reads back; the model returns
the value and updates the `lastValue` field).  `execStmt` is the statement
visitors.  Errors carry the state at the throw point, because C++
exceptions do not undo side effects already performed. -/

mutual

/-- Expression evaluation (`Interpreter::evaluate` plus the expression
visitors of `interpreter.cpp`). -/
def evalExpr : Nat → Expr → IState → Except (Ctl × IState) (Value × IState)
  | 0, _, st => .error (.fuelOut, st)
  | f + 1, e, st =>
    match e with
    | .literal tok =>
      match tokenToValue tok with
      | .ok v => .ok (v, { st with lastValue := v })
      | .error c => .error (c, st)
    | .ident n _ =>
      -- builtin table consulted before the environment chain
      if isBuiltinName n then
        let v := Value.strV ("__builtin_" ++ n)
        .ok (v, { st with lastValue := v })
      else
        match envGet st.heap st.cur n with
        | .ok v => .ok (v, { st with lastValue := v })
        | .error c => .error (c, st)
    | .binary l op r _ => do
      let (lv, st1) ← evalExpr f l st
      let (rv, st2) ← evalExpr f r st1
      match binOpValues op lv rv with
      | .ok v => .ok (v, { st2 with lastValue := v })
      | .error c => .error (c, st2)
    | .unaryE _ operand _ => do
      let (v, st1) ← evalExpr f operand st
      let w := unaryResult v
      .ok (w, { st1 with lastValue := w })
    | .callE fn args _ => do
      let (cv, st1) ← evalExpr f fn st
      let (argVals, st2) ← evalArgs f args st1
      let (v, st3) ← callValue f cv argVals st2
      .ok (v, { st3 with lastValue := v })
    | .member _ _ _ => .ok (.nullV, { st with lastValue := .nullV })
    | .assignE target value _ _ => do
      -- the right-hand side is evaluated first, then the target's shape
      -- is checked (dynamic_cast to IdentifierExpression)
      let (v, st1) ← evalExpr f value st
      match target with
      | .ident n _ =>
        let st2 := { st1 with heap := defineVar st1.heap st1.cur n v }
        .ok (v, { st2 with lastValue := v })
      | _ => .error (.rte "Invalid assignment target", st1)
    | .listE _ _ =>
      let v := Value.strV "[list]"
      .ok (v, { st with lastValue := v })
    | .dictE _ _ =>
      let v := Value.strV "[dict]"
      .ok (v, { st with lastValue := v })

/-- Left-to-right evaluation of call arguments. -/
def evalArgs : Nat → List Expr → IState → Except (Ctl × IState) (List Value × IState)
  | 0, _, st => .error (.fuelOut, st)
  | _ + 1, [], st => .ok ([], st)
  | f + 1, e :: rest, st => do
    let (v, st1) ← evalExpr f e st
    let (vs, st2) ← evalArgs f rest st1
    .ok (v :: vs, st2)

/-- The callee dispatch of `Interpreter::visit(CallExpression&)` on an
already-evaluated callee: user function, `"__builtin_"`-prefixed string,
or the not-callable diagnostic. -/
def callValue : Nat → Value → List Value → IState →
    Except (Ctl × IState) (Value × IState)
  | 0, _, _, st => .error (.fuelOut, st)
  | f + 1, callee, args, st =>
    match callee with
    | .funcV decl closure => callFunction f decl closure args st
    | .strV s =>
      if cppSubstr s 0 10 = "__builtin_" then
        let fname := cppSubstrFrom s 10
        if isBuiltinName fname then applyBuiltin fname args st
        else .error (.rte "Object is not callable", st)
      else .error (.rte "Object is not callable", st)
    | _ => .error (.rte "Object is not callable", st)

/-- `CallableFunction::call`: new environment over the closure, parameter
binding (with defaults evaluated in the closure environment), the
excess-arguments check, then the body with `Return` trapped and the
current-environment pointer restored on every exit. -/
def callFunction : Nat → FuncDecl → Nat → List Value → IState →
    Except (Ctl × IState) (Value × IState)
  | 0, _, _, _, st => .error (.fuelOut, st)
  | f + 1, decl, closure, args, st =>
    let newId := st.heap.length
    let st := { st with heap := st.heap ++ [⟨some closure, []⟩] }
    match bindParams f decl.params 0 args newId closure st with
    | .error (c, st') => .error (c, st')
    | .ok st1 =>
      if decl.params.length < args.length then
        .error (.rte ("Too many arguments: expected " ++
                      toString decl.params.length ++ ", got " ++
                      toString args.length), st1)
      else
        let prev := st1.cur
        match execStmt f decl.body { st1 with cur := newId } with
        | .ok st2 => .ok (.nullV, { st2 with cur := prev })
        | .error (.ret v, st2) => .ok (v, { st2 with cur := prev })
        | .error (c, st2) => .error (c, { st2 with cur := prev })

/-- The parameter-binding loop of `CallableFunction::call`.  A default
expression is evaluated with the current environment temporarily switched
to the closure; if that evaluation throws, the pointer is not restored
(there is no catch around the binding loop in the source). -/
def bindParams : Nat → List Param → Nat → List Value → Nat → Nat → IState →
    Except (Ctl × IState) IState
  | 0, _, _, _, _, _, st => .error (.fuelOut, st)
  | _ + 1, [], _, _, _, _, st => .ok st
  | f + 1, p :: rest, i, args, newId, closure, st =>
    match args[i]? with
    | some v =>
      let st1 := { st with heap := defineVar st.heap newId p.name v }
      bindParams f rest (i + 1) args newId closure st1
    | none =>
      match p.defaultValue with
      | some e =>
        let prev := st.cur
        match evalExpr f e { st with cur := closure } with
        | .error (c, st') => .error (c, st')
        | .ok (v, st') =>
          let st2 := { st' with cur := prev }
          let st3 := { st2 with heap := defineVar st2.heap newId p.name v }
          bindParams f rest (i + 1) args newId closure st3
      | none =>
        .error (.rte ("Missing argument for parameter '" ++ p.name ++ "'"), st)

/-- Statement execution (the statement visitors of `interpreter.cpp`). -/
def execStmt : Nat → Stmt → IState → Except (Ctl × IState) IState
  | 0, _, st => .error (.fuelOut, st)
  | f + 1, s, st =>
    match s with
    | .exprStmt e _ => do
      let (_, st1) ← evalExpr f e st
      .ok st1
    | .block stmts _ => execStmtList f stmts st
    | .ifS cond thenB elseB _ => do
      let (c, st1) ← evalExpr f cond st
      if isTruthy c then execStmt f thenB st1
      else
        match elseB with
        | some eb => execStmt f eb st1
        | none => .ok st1
    | .whileS cond body _ => whileLoop f cond body st
    | .forS v iter body _ => do
      let (iv, st1) ← evalExpr f iter st
      match iv with
      | .strV sv =>
        -- `str_val.find("__range_") == 0`: the sentinel prefix check
        if sv.data.take 8 = "__range_".data then
          match cppFindFrom sv '_' 8 with
          | none => .ok st1
          | some fu =>
            match cppFindFrom sv '_' (fu + 1) with
            | none => .ok st1
            | some su =>
              match cppStoi (cppSubstr sv 8 (fu - 8)),
                    cppStoi (cppSubstr sv (fu + 1) (su - fu - 1)),
                    cppStoi (cppSubstrFrom sv (su + 1)) with
              | .ok a, .ok b, .ok c => forLoop f v body a b c st1
              | _, _, _ => .error (.stdExc "stoi", st1)
        else .ok st1
      | _ => .ok st1
    | .funcDef name params body _ =>
      let fn := Value.funcV ⟨name, params, body⟩ st.cur
      .ok { st with heap := defineVar st.heap st.cur name fn }
    | .classDef name _ _ _ =>
      .ok { st with
              heap := defineVar st.heap st.cur name
                        (.strV ("__class_" ++ name)) }
    | .returnS val _ =>
      match val with
      | some e => do
        let (v, st1) ← evalExpr f e st
        .error (.ret v, st1)
      | none => .error (.ret .nullV, st)
    | .breakS _ => .error (.brk, st)
    | .continueS _ => .error (.cont, st)
    | .passS _ => .ok st

/-- `Interpreter::visit(WhileStatement&)`: re-evaluate the condition each
iteration; trap `Continue` and `Break` around the body; everything else
propagates. -/
def whileLoop : Nat → Expr → Stmt → IState → Except (Ctl × IState) IState
  | 0, _, _, st => .error (.fuelOut, st)
  | f + 1, cond, body, st => do
    let (c, st1) ← evalExpr f cond st
    if isTruthy c then
      match execStmt f body st1 with
      | .ok st2 => whileLoop f cond body st2
      | .error (.cont, st2) => whileLoop f cond body st2
      | .error (.brk, st2) => .ok st2
      | .error (e, st2) => .error (e, st2)
    else .ok st1

/-- The integer loop of `Interpreter::visit(ForStatement&)` over a decoded
range sentinel: `for (int i = start; i < stop; i += step)`, binding the
loop variable in the current environment before each body run. -/
def forLoop : Nat → String → Stmt → Int → Int → Int → IState →
    Except (Ctl × IState) IState
  | 0, _, _, _, _, _, st => .error (.fuelOut, st)
  | f + 1, v, body, i, stop, step, st =>
    if i < stop then
      let st1 := { st with heap := defineVar st.heap st.cur v (.intV i) }
      match execStmt f body st1 with
      | .ok st2 => forLoop f v body (i + step) stop step st2
      | .error (.cont, st2) => forLoop f v body (i + step) stop step st2
      | .error (.brk, st2) => .ok st2
      | .error (c, st2) => .error (c, st2)
    else .ok st

/-- Sequential statement execution (`BlockStatement`/`Program` visitors). -/
def execStmtList : Nat → List Stmt → IState → Except (Ctl × IState) IState
  | 0, _, st => .error (.fuelOut, st)
  | _ + 1, [], st => .ok st
  | f + 1, s :: rest, st => do
    let st1 ← execStmt f s st
    execStmtList f rest st1

end

/-- `Interpreter::interpret`: run the program; `RuntimeError` is caught
(its message goes to standard error) and the result is then null;
control-flow exceptions and other `std::exception`s escape. -/
def interpretProgram (fuel : Nat) (prog : List Stmt) (st : IState) :
    Except (Ctl × IState) (Value × IState) :=
  match execStmtList fuel prog st with
  | .ok st' => .ok (st'.lastValue, st')
  | .error (.rte _, st') => .ok (.nullV, st')
  | .error (c, st') => .error (c, st')

/-- The interpretation path of `main` (`src/main.cpp`, `--interpret`):
tokenize, parse, interpret.  Exit code 1 when a `CaesarException` (lexer or
parser diagnostic) or any other `std::exception` reaches `main`'s catch
blocks; 0 otherwise — in particular `RuntimeError`s are already absorbed
by `Interpreter::interpret`.  `none` means the model ran out of fuel. -/
def runCaesar (fuel : Nat) (source : String) : Option Nat :=
  match tokenize fuel source with
  | .error .fuelOut => none
  | .error (.err _) => some 1
  | .ok toks =>
    match parseProgram fuel toks with
    | .error .fuelOut => none
    | .error (.perr _) => some 1
    | .ok prog =>
      match interpretProgram fuel prog initIState with
      | .ok _ => some 0
      | .error (.fuelOut, _) => none
      | .error _ => some 1

/-! ### Indentation-count invariants of the lexer (claim C1) -/

theorem countTok_append (t : TokenType) (l1 l2 : List Token) :
    countTok t (l1 ++ l2) = countTok t l1 + countTok t l2 := by
  simp [countTok, List.filter_append]

theorem countTok_cons (t : TokenType) (x : Token) (l : List Token) :
    countTok t (x :: l) =
      (if x.type = t then 1 else 0) + countTok t l := by
  by_cases h : x.type = t
  · simp [countTok, h]
    omega
  · simp [countTok, h]

theorem popIndents_spec (stack : List Nat) (lvl : Nat) :
    (popIndents stack lvl).1 + (popIndents stack lvl).2.length = stack.length := by
  induction stack with
  | nil => simp [popIndents]
  | cons top rest ih =>
    rcases hp : popIndents rest lvl with ⟨n, s⟩
    rw [hp] at ih
    by_cases h : lvl < top
    · simp only [popIndents, if_pos h, hp]
      simp at ih ⊢
      omega
    · simp [popIndents, if_neg h]

theorem handleIndentation_spec (st0 : LexState) (toks : List Token) (st' : LexState)
    (hne : st0.stack ≠ [])
    (h : handleIndentation st0 = .ok (toks, st')) :
    st'.stack ≠ [] ∧
    (toks = [] → st'.stack.length = st0.stack.length) ∧
    (∀ t drop, toks = t :: drop →
      (if t.type = .DEDENT then 1 else 0) + st'.stack.length ≤
      (if t.type = .INDENT then 1 else 0) + st0.stack.length) := by
  unfold handleIndentation at h
  rcases hmid : takeIndent st0.src st0.pos 0 with ⟨lvl, src1, pos1⟩
  rw [hmid] at h
  dsimp only at h
  split at h
  · -- empty rest of line
    simp only [Except.ok.injEq, Prod.mk.injEq] at h
    obtain ⟨rfl, rfl⟩ := h
    exact ⟨hne, fun _ => rfl, fun t drop hcon => nomatch hcon⟩
  · split at h
    · -- blank line or comment
      simp only [Except.ok.injEq, Prod.mk.injEq] at h
      obtain ⟨rfl, rfl⟩ := h
      exact ⟨hne, fun _ => rfl, fun t drop hcon => nomatch hcon⟩
    · split at h
      · -- indent increased: one INDENT, stack pushed
        simp only [Except.ok.injEq, Prod.mk.injEq] at h
        obtain ⟨rfl, rfl⟩ := h
        refine ⟨by simp, (fun hcon => nomatch hcon), fun t drop htd => ?_⟩
        injection htd with h1 h2
        subst h1
        simp [makeToken]
        omega
      · split at h
        · -- indent decreased
          split at h
          · -- mismatched level: error, contradiction
            simp at h
          · rename_i hchk
            simp only [Except.ok.injEq, Prod.mk.injEq] at h
            obtain ⟨rfl, rfl⟩ := h
            simp only [Bool.or_eq_true, not_or, List.isEmpty_iff,
              decide_eq_true_eq, not_not] at hchk
            have hlen := popIndents_spec st0.stack lvl
            refine ⟨hchk.1, ⟨fun hcon => ?_, fun t drop htd => ?_⟩⟩
            · rw [List.replicate_eq_nil_iff] at hcon
              simp only
              omega
            · rcases hn : (popIndents st0.stack lvl).1 with _ | m
              · rw [hn] at htd
                nomatch htd
              · rw [hn, List.replicate_succ] at htd
                injection htd with h1 h2
                subst h1
                simp [makeToken]
                omega
        · -- indent unchanged
          simp only [Except.ok.injEq, Prod.mk.injEq] at h
          obtain ⟨rfl, rfl⟩ := h
          exact ⟨hne, fun _ => rfl, fun t drop hcon => nomatch hcon⟩

theorem keywordLookup_not_indent (s : String) (kw : TokenType)
    (h : keywordLookup s = some kw) :
    kw ≠ .INDENT ∧ kw ≠ .DEDENT := by
  unfold keywordLookup at h
  split at h <;> simp_all <;> subst h <;> exact ⟨by simp, by simp⟩

theorem scanNumber_not_indent (src : List Char) (p : Position) :
    (scanNumber src p).1 ≠ .INDENT ∧ (scanNumber src p).1 ≠ .DEDENT := by
  unfold scanNumber
  rcases takeDigits src p "" with ⟨intPart, src1, p1⟩
  dsimp only
  split <;> first
    | (split <;> exact ⟨by simp, by simp⟩)
    | exact ⟨by simp, by simp⟩

theorem scanIdentifier_not_indent (src : List Char) (p : Position) :
    (scanIdentifier src p).1 ≠ .INDENT ∧ (scanIdentifier src p).1 ≠ .DEDENT := by
  unfold scanIdentifier
  rcases takeIdentChars src p "" with ⟨value, src1, p1⟩
  dsimp only
  rcases hkw : keywordLookup value with _ | kw
  · exact ⟨by simp, by simp⟩
  · exact keywordLookup_not_indent value kw hkw

theorem scanSimpleToken_spec (c : Char) (rest : List Char) (st2 st3 : LexState)
    (tok : Token) (st' : LexState)
    (hss : st3.stack = st2.stack)
    (h : scanSimpleToken c rest st2 st3 = .ok (tok, st')) :
    tok.type ≠ .DEDENT ∧ st'.stack = st2.stack := by
  unfold scanSimpleToken at h
  by_cases h1 : (c = '"' || c = '\'') = true
  · rw [if_pos h1] at h
    rcases hs : scanString c st3.src st3.pos "" with e | ⟨value, srcS, posS⟩
    · rw [hs] at h
      simp at h
    · rw [hs] at h
      dsimp only at h
      simp only [Except.ok.injEq, Prod.mk.injEq] at h
      obtain ⟨rfl, rfl⟩ := h
      exact ⟨by simp [makeToken], hss⟩
  · rw [if_neg h1] at h
    by_cases h2 : isDigitC c = true
    · rw [if_pos h2] at h
      rcases hnum : scanNumber st2.src st2.pos with ⟨tt, value, srcN, posN⟩
      rw [hnum] at h
      dsimp only at h
      simp only [Except.ok.injEq, Prod.mk.injEq] at h
      obtain ⟨rfl, rfl⟩ := h
      have hty := scanNumber_not_indent st2.src st2.pos
      rw [hnum] at hty
      exact ⟨by simpa [makeToken] using hty.2, rfl⟩
    · rw [if_neg h2] at h
      by_cases h3 : isAlphaC c = true
      · rw [if_pos h3] at h
        rcases hid : scanIdentifier st2.src st2.pos with ⟨tt, value, srcI, posI⟩
        rw [hid] at h
        dsimp only at h
        simp only [Except.ok.injEq, Prod.mk.injEq] at h
        obtain ⟨rfl, rfl⟩ := h
        have hty := scanIdentifier_not_indent st2.src st2.pos
        rw [hid] at hty
        exact ⟨by simpa [makeToken] using hty.2, rfl⟩
      · rw [if_neg h3] at h
        rcases rest with _ | ⟨nx, r2⟩
        · dsimp only at h
          by_cases hc1 : c = '+'
          · rw [if_pos hc1] at h
            rw [if_neg (show ¬(('\x00' : Char) = '=') from by decide)] at h
            simp only [Except.ok.injEq, Prod.mk.injEq] at h
            obtain ⟨rfl, rfl⟩ := h
            exact ⟨by simp [makeToken], hss⟩
          · rw [if_neg hc1] at h
            by_cases hc2 : c = '-'
            · rw [if_pos hc2] at h
              rw [if_neg (show ¬(('\x00' : Char) = '=') from by decide)] at h
              simp only [Except.ok.injEq, Prod.mk.injEq] at h
              obtain ⟨rfl, rfl⟩ := h
              exact ⟨by simp [makeToken], hss⟩
            · rw [if_neg hc2] at h
              by_cases hc3 : c = '*'
              · rw [if_pos hc3] at h
                rw [if_neg (show ¬(('\x00' : Char) = '*') from by decide)] at h
                rw [if_neg (show ¬(('\x00' : Char) = '=') from by decide)] at h
                simp only [Except.ok.injEq, Prod.mk.injEq] at h
                obtain ⟨rfl, rfl⟩ := h
                exact ⟨by simp [makeToken], hss⟩
              · rw [if_neg hc3] at h
                by_cases hc4 : c = '/'
                · rw [if_pos hc4] at h
                  rw [if_neg (show ¬(('\x00' : Char) = '/') from by decide)] at h
                  rw [if_neg (show ¬(('\x00' : Char) = '=') from by decide)] at h
                  simp only [Except.ok.injEq, Prod.mk.injEq] at h
                  obtain ⟨rfl, rfl⟩ := h
                  exact ⟨by simp [makeToken], hss⟩
                · rw [if_neg hc4] at h
                  by_cases hc5 : c = '='
                  · rw [if_pos hc5] at h
                    rw [if_neg (show ¬(('\x00' : Char) = '=') from by decide)] at h
                    simp only [Except.ok.injEq, Prod.mk.injEq] at h
                    obtain ⟨rfl, rfl⟩ := h
                    exact ⟨by simp [makeToken], hss⟩
                  · rw [if_neg hc5] at h
                    by_cases hc6 : c = '!'
                    · rw [if_pos hc6] at h
                      rw [if_neg (show ¬(('\x00' : Char) = '=') from by decide)] at h
                      simp at h
                    · rw [if_neg hc6] at h
                      by_cases hc7 : c = '<'
                      · rw [if_pos hc7] at h
                        rw [if_neg (show ¬(('\x00' : Char) = '=') from by decide)] at h
                        simp only [Except.ok.injEq, Prod.mk.injEq] at h
                        obtain ⟨rfl, rfl⟩ := h
                        exact ⟨by simp [makeToken], hss⟩
                      · rw [if_neg hc7] at h
                        by_cases hc8 : c = '>'
                        · rw [if_pos hc8] at h
                          rw [if_neg (show ¬(('\x00' : Char) = '=') from by decide)] at h
                          simp only [Except.ok.injEq, Prod.mk.injEq] at h
                          obtain ⟨rfl, rfl⟩ := h
                          exact ⟨by simp [makeToken], hss⟩
                        · rw [if_neg hc8] at h
                          by_cases hc9 : c = '%'
                          · rw [if_pos hc9] at h
                            simp only [Except.ok.injEq, Prod.mk.injEq] at h
                            obtain ⟨rfl, rfl⟩ := h
                            exact ⟨by simp [makeToken], hss⟩
                          · rw [if_neg hc9] at h
                            by_cases hc10 : c = '('
                            · rw [if_pos hc10] at h
                              simp only [Except.ok.injEq, Prod.mk.injEq] at h
                              obtain ⟨rfl, rfl⟩ := h
                              exact ⟨by simp [makeToken], hss⟩
                            · rw [if_neg hc10] at h
                              by_cases hc11 : c = ')'
                              · rw [if_pos hc11] at h
                                simp only [Except.ok.injEq, Prod.mk.injEq] at h
                                obtain ⟨rfl, rfl⟩ := h
                                exact ⟨by simp [makeToken], hss⟩
                              · rw [if_neg hc11] at h
                                by_cases hc12 : c = '['
                                · rw [if_pos hc12] at h
                                  simp only [Except.ok.injEq, Prod.mk.injEq] at h
                                  obtain ⟨rfl, rfl⟩ := h
                                  exact ⟨by simp [makeToken], hss⟩
                                · rw [if_neg hc12] at h
                                  by_cases hc13 : c = ']'
                                  · rw [if_pos hc13] at h
                                    simp only [Except.ok.injEq, Prod.mk.injEq] at h
                                    obtain ⟨rfl, rfl⟩ := h
                                    exact ⟨by simp [makeToken], hss⟩
                                  · rw [if_neg hc13] at h
                                    by_cases hc14 : c = '\x7b'
                                    · rw [if_pos hc14] at h
                                      simp only [Except.ok.injEq, Prod.mk.injEq] at h
                                      obtain ⟨rfl, rfl⟩ := h
                                      exact ⟨by simp [makeToken], hss⟩
                                    · rw [if_neg hc14] at h
                                      by_cases hc15 : c = '\x7d'
                                      · rw [if_pos hc15] at h
                                        simp only [Except.ok.injEq, Prod.mk.injEq] at h
                                        obtain ⟨rfl, rfl⟩ := h
                                        exact ⟨by simp [makeToken], hss⟩
                                      · rw [if_neg hc15] at h
                                        by_cases hc16 : c = ','
                                        · rw [if_pos hc16] at h
                                          simp only [Except.ok.injEq, Prod.mk.injEq] at h
                                          obtain ⟨rfl, rfl⟩ := h
                                          exact ⟨by simp [makeToken], hss⟩
                                        · rw [if_neg hc16] at h
                                          by_cases hc17 : c = ':'
                                          · rw [if_pos hc17] at h
                                            simp only [Except.ok.injEq, Prod.mk.injEq] at h
                                            obtain ⟨rfl, rfl⟩ := h
                                            exact ⟨by simp [makeToken], hss⟩
                                          · rw [if_neg hc17] at h
                                            by_cases hc18 : c = ';'
                                            · rw [if_pos hc18] at h
                                              simp only [Except.ok.injEq, Prod.mk.injEq] at h
                                              obtain ⟨rfl, rfl⟩ := h
                                              exact ⟨by simp [makeToken], hss⟩
                                            · rw [if_neg hc18] at h
                                              by_cases hc19 : c = '.'
                                              · rw [if_pos hc19] at h
                                                simp only [Except.ok.injEq, Prod.mk.injEq] at h
                                                obtain ⟨rfl, rfl⟩ := h
                                                exact ⟨by simp [makeToken], hss⟩
                                              · rw [if_neg hc19] at h
                                                simp at h
        · dsimp only at h
          by_cases hc1 : c = '+'
          · rw [if_pos hc1] at h
            by_cases hc2 : nx = '='
            · rw [if_pos hc2] at h
              simp only [Except.ok.injEq, Prod.mk.injEq] at h
              obtain ⟨rfl, rfl⟩ := h
              exact ⟨by simp [makeToken], hss⟩
            · rw [if_neg hc2] at h
              simp only [Except.ok.injEq, Prod.mk.injEq] at h
              obtain ⟨rfl, rfl⟩ := h
              exact ⟨by simp [makeToken], hss⟩
          · rw [if_neg hc1] at h
            by_cases hc3 : c = '-'
            · rw [if_pos hc3] at h
              by_cases hc4 : nx = '='
              · rw [if_pos hc4] at h
                simp only [Except.ok.injEq, Prod.mk.injEq] at h
                obtain ⟨rfl, rfl⟩ := h
                exact ⟨by simp [makeToken], hss⟩
              · rw [if_neg hc4] at h
                simp only [Except.ok.injEq, Prod.mk.injEq] at h
                obtain ⟨rfl, rfl⟩ := h
                exact ⟨by simp [makeToken], hss⟩
            · rw [if_neg hc3] at h
              by_cases hc5 : c = '*'
              · rw [if_pos hc5] at h
                by_cases hc6 : nx = '*'
                · rw [if_pos hc6] at h
                  simp only [Except.ok.injEq, Prod.mk.injEq] at h
                  obtain ⟨rfl, rfl⟩ := h
                  exact ⟨by simp [makeToken], hss⟩
                · rw [if_neg hc6] at h
                  by_cases hc7 : nx = '='
                  · rw [if_pos hc7] at h
                    simp only [Except.ok.injEq, Prod.mk.injEq] at h
                    obtain ⟨rfl, rfl⟩ := h
                    exact ⟨by simp [makeToken], hss⟩
                  · rw [if_neg hc7] at h
                    simp only [Except.ok.injEq, Prod.mk.injEq] at h
                    obtain ⟨rfl, rfl⟩ := h
                    exact ⟨by simp [makeToken], hss⟩
              · rw [if_neg hc5] at h
                by_cases hc8 : c = '/'
                · rw [if_pos hc8] at h
                  by_cases hc9 : nx = '/'
                  · rw [if_pos hc9] at h
                    simp only [Except.ok.injEq, Prod.mk.injEq] at h
                    obtain ⟨rfl, rfl⟩ := h
                    exact ⟨by simp [makeToken], hss⟩
                  · rw [if_neg hc9] at h
                    by_cases hc10 : nx = '='
                    · rw [if_pos hc10] at h
                      simp only [Except.ok.injEq, Prod.mk.injEq] at h
                      obtain ⟨rfl, rfl⟩ := h
                      exact ⟨by simp [makeToken], hss⟩
                    · rw [if_neg hc10] at h
                      simp only [Except.ok.injEq, Prod.mk.injEq] at h
                      obtain ⟨rfl, rfl⟩ := h
                      exact ⟨by simp [makeToken], hss⟩
                · rw [if_neg hc8] at h
                  by_cases hc11 : c = '='
                  · rw [if_pos hc11] at h
                    by_cases hc12 : nx = '='
                    · rw [if_pos hc12] at h
                      simp only [Except.ok.injEq, Prod.mk.injEq] at h
                      obtain ⟨rfl, rfl⟩ := h
                      exact ⟨by simp [makeToken], hss⟩
                    · rw [if_neg hc12] at h
                      simp only [Except.ok.injEq, Prod.mk.injEq] at h
                      obtain ⟨rfl, rfl⟩ := h
                      exact ⟨by simp [makeToken], hss⟩
                  · rw [if_neg hc11] at h
                    by_cases hc13 : c = '!'
                    · rw [if_pos hc13] at h
                      by_cases hc14 : nx = '='
                      · rw [if_pos hc14] at h
                        simp only [Except.ok.injEq, Prod.mk.injEq] at h
                        obtain ⟨rfl, rfl⟩ := h
                        exact ⟨by simp [makeToken], hss⟩
                      · rw [if_neg hc14] at h
                        simp at h
                    · rw [if_neg hc13] at h
                      by_cases hc15 : c = '<'
                      · rw [if_pos hc15] at h
                        by_cases hc16 : nx = '='
                        · rw [if_pos hc16] at h
                          simp only [Except.ok.injEq, Prod.mk.injEq] at h
                          obtain ⟨rfl, rfl⟩ := h
                          exact ⟨by simp [makeToken], hss⟩
                        · rw [if_neg hc16] at h
                          simp only [Except.ok.injEq, Prod.mk.injEq] at h
                          obtain ⟨rfl, rfl⟩ := h
                          exact ⟨by simp [makeToken], hss⟩
                      · rw [if_neg hc15] at h
                        by_cases hc17 : c = '>'
                        · rw [if_pos hc17] at h
                          by_cases hc18 : nx = '='
                          · rw [if_pos hc18] at h
                            simp only [Except.ok.injEq, Prod.mk.injEq] at h
                            obtain ⟨rfl, rfl⟩ := h
                            exact ⟨by simp [makeToken], hss⟩
                          · rw [if_neg hc18] at h
                            simp only [Except.ok.injEq, Prod.mk.injEq] at h
                            obtain ⟨rfl, rfl⟩ := h
                            exact ⟨by simp [makeToken], hss⟩
                        · rw [if_neg hc17] at h
                          by_cases hc19 : c = '%'
                          · rw [if_pos hc19] at h
                            simp only [Except.ok.injEq, Prod.mk.injEq] at h
                            obtain ⟨rfl, rfl⟩ := h
                            exact ⟨by simp [makeToken], hss⟩
                          · rw [if_neg hc19] at h
                            by_cases hc20 : c = '('
                            · rw [if_pos hc20] at h
                              simp only [Except.ok.injEq, Prod.mk.injEq] at h
                              obtain ⟨rfl, rfl⟩ := h
                              exact ⟨by simp [makeToken], hss⟩
                            · rw [if_neg hc20] at h
                              by_cases hc21 : c = ')'
                              · rw [if_pos hc21] at h
                                simp only [Except.ok.injEq, Prod.mk.injEq] at h
                                obtain ⟨rfl, rfl⟩ := h
                                exact ⟨by simp [makeToken], hss⟩
                              · rw [if_neg hc21] at h
                                by_cases hc22 : c = '['
                                · rw [if_pos hc22] at h
                                  simp only [Except.ok.injEq, Prod.mk.injEq] at h
                                  obtain ⟨rfl, rfl⟩ := h
                                  exact ⟨by simp [makeToken], hss⟩
                                · rw [if_neg hc22] at h
                                  by_cases hc23 : c = ']'
                                  · rw [if_pos hc23] at h
                                    simp only [Except.ok.injEq, Prod.mk.injEq] at h
                                    obtain ⟨rfl, rfl⟩ := h
                                    exact ⟨by simp [makeToken], hss⟩
                                  · rw [if_neg hc23] at h
                                    by_cases hc24 : c = '\x7b'
                                    · rw [if_pos hc24] at h
                                      simp only [Except.ok.injEq, Prod.mk.injEq] at h
                                      obtain ⟨rfl, rfl⟩ := h
                                      exact ⟨by simp [makeToken], hss⟩
                                    · rw [if_neg hc24] at h
                                      by_cases hc25 : c = '\x7d'
                                      · rw [if_pos hc25] at h
                                        simp only [Except.ok.injEq, Prod.mk.injEq] at h
                                        obtain ⟨rfl, rfl⟩ := h
                                        exact ⟨by simp [makeToken], hss⟩
                                      · rw [if_neg hc25] at h
                                        by_cases hc26 : c = ','
                                        · rw [if_pos hc26] at h
                                          simp only [Except.ok.injEq, Prod.mk.injEq] at h
                                          obtain ⟨rfl, rfl⟩ := h
                                          exact ⟨by simp [makeToken], hss⟩
                                        · rw [if_neg hc26] at h
                                          by_cases hc27 : c = ':'
                                          · rw [if_pos hc27] at h
                                            simp only [Except.ok.injEq, Prod.mk.injEq] at h
                                            obtain ⟨rfl, rfl⟩ := h
                                            exact ⟨by simp [makeToken], hss⟩
                                          · rw [if_neg hc27] at h
                                            by_cases hc28 : c = ';'
                                            · rw [if_pos hc28] at h
                                              simp only [Except.ok.injEq, Prod.mk.injEq] at h
                                              obtain ⟨rfl, rfl⟩ := h
                                              exact ⟨by simp [makeToken], hss⟩
                                            · rw [if_neg hc28] at h
                                              by_cases hc29 : c = '.'
                                              · rw [if_pos hc29] at h
                                                simp only [Except.ok.injEq, Prod.mk.injEq] at h
                                                obtain ⟨rfl, rfl⟩ := h
                                                exact ⟨by simp [makeToken], hss⟩
                                              · rw [if_neg hc29] at h
                                                simp at h


theorem nextToken_stack_inv (f : Nat) :
    (∀ st tok st', st.stack ≠ [] → nextToken f st = .ok (tok, st') →
      st'.stack ≠ [] ∧
      (if tok.type = .DEDENT then 1 else 0) + st'.stack.length ≤
      (if tok.type = .INDENT then 1 else 0) + st.stack.length) ∧
    (∀ st tok st', st.stack ≠ [] → nextTokenBody f st = .ok (tok, st') →
      st'.stack ≠ [] ∧
      (if tok.type = .DEDENT then 1 else 0) + st'.stack.length ≤
      (if tok.type = .INDENT then 1 else 0) + st.stack.length) := by
  induction f with
  | zero =>
    constructor <;> (intro st tok st' hne h; simp [nextToken, nextTokenBody] at h)
  | succ f ih =>
    obtain ⟨ihT, ihB⟩ := ih
    constructor
    · intro st tok st' hne h
      simp only [nextToken] at h
      by_cases he : st.src.isEmpty = true
      · rw [if_pos he] at h
        simp only [Except.ok.injEq, Prod.mk.injEq] at h
        obtain ⟨rfl, rfl⟩ := h
        exact ⟨hne, by simp [makeToken]⟩
      · rw [if_neg he] at h
        by_cases hal : st.atLineStart = true
        · rw [if_pos hal] at h
          rcases hhi : handleIndentation { st with atLineStart := false } with e | ⟨toksI, stB⟩
          · rw [hhi] at h
            simp at h
          · rw [hhi] at h
            have hspec := handleIndentation_spec { st with atLineStart := false } toksI stB hne hhi
            rcases toksI with _ | ⟨t0, drop⟩
            · dsimp only at h
              have hrec := ihB stB tok st' hspec.1 h
              have hlen : stB.stack.length = st.stack.length := hspec.2.1 rfl
              refine ⟨hrec.1, ?_⟩
              rw [← hlen]
              exact hrec.2
            · dsimp only at h
              simp only [Except.ok.injEq, Prod.mk.injEq] at h
              obtain ⟨rfl, rfl⟩ := h
              exact ⟨hspec.1, hspec.2.2 t0 drop rfl⟩
        · rw [if_neg hal] at h
          exact ihB st tok st' hne h
    · intro st tok st' hne h
      simp only [nextTokenBody] at h
      rcases hws : skipWs st.src st.pos with ⟨src2, pos2⟩
      rw [hws] at h
      dsimp only at h
      rcases src2 with _ | ⟨c, rest⟩
      · simp only [Except.ok.injEq, Prod.mk.injEq] at h
        obtain ⟨rfl, rfl⟩ := h
        exact ⟨hne, by simp [makeToken]⟩
      · dsimp only at h
        by_cases hnl : c = '\n'
        · rw [if_pos hnl] at h
          simp only [Except.ok.injEq, Prod.mk.injEq] at h
          obtain ⟨rfl, rfl⟩ := h
          exact ⟨hne, by simp [makeToken]⟩
        · rw [if_neg hnl] at h
          by_cases hcm : c = '#'
          · rw [if_pos hcm] at h
            rcases hsc : skipCommentChars rest (advancePos pos2 c) with ⟨srcC, posC⟩
            rw [hsc] at h
            dsimp only at h
            exact ihT { st with src := srcC, pos := posC } tok st' hne h
          · rw [if_neg hcm] at h
            rcases scanSimpleToken_spec c rest { st with src := c :: rest, pos := pos2 }
              { st with src := rest, pos := advancePos pos2 c } tok st' rfl h with ⟨hty, hstk⟩
            refine ⟨?_, ?_⟩
            · rw [hstk]
              exact hne
            · rw [if_neg hty, hstk]
              dsimp only
              split <;> omega

theorem countTok_nil (t : TokenType) : countTok t [] = 0 := rfl

theorem countTok_singleton (t : TokenType) (x : Token) :
    countTok t [x] = if x.type = t then 1 else 0 := by
  by_cases hh : x.type = t <;> simp [countTok, hh]

theorem tokenizeLoop_inv (f : Nat) : ∀ st acc toks st',
    st.stack ≠ [] →
    tokenizeLoop f st acc = .ok (toks, st') →
    st'.stack ≠ [] ∧
    countTok .DEDENT toks + st'.stack.length + countTok .INDENT acc ≤
      countTok .INDENT toks + st.stack.length + countTok .DEDENT acc := by
  induction f with
  | zero =>
    intro st acc toks st' hne h
    simp [tokenizeLoop] at h
  | succ f ih =>
    intro st acc toks st' hne h
    simp only [tokenizeLoop] at h
    by_cases he : st.src.isEmpty = true
    · rw [if_pos he] at h
      simp only [Except.ok.injEq, Prod.mk.injEq] at h
      obtain ⟨rfl, rfl⟩ := h
      exact ⟨hne, by omega⟩
    · rw [if_neg he] at h
      rcases hnt : nextToken (f + 1) st with e | ⟨tok, stM⟩
      · rw [hnt] at h
        simp at h
      · rw [hnt] at h
        dsimp only at h
        have hstep := (nextToken_stack_inv (f + 1)).1 st tok stM hne hnt
        by_cases hty : tok.type = .EOF_TOKEN
        · rw [if_pos hty] at h
          simp only [Except.ok.injEq, Prod.mk.injEq] at h
          obtain ⟨rfl, rfl⟩ := h
          refine ⟨hstep.1, ?_⟩
          have hle : stM.stack.length ≤ st.stack.length := by
            have h2 := hstep.2
            rw [hty] at h2
            simpa using h2
          rw [countTok_append, countTok_append, countTok_singleton,
            countTok_singleton, hty]
          simp
          omega
        · rw [if_neg hty] at h
          have hrec := ih stM (acc ++ [tok]) toks st' hstep.1 h
          refine ⟨hrec.1, ?_⟩
          rw [countTok_append, countTok_append, countTok_singleton,
            countTok_singleton] at hrec
          have hd := hstep.2
          set dD := (if tok.type = .DEDENT then (1 : Nat) else 0) with hdD
          set dI := (if tok.type = .INDENT then (1 : Nat) else 0) with hdI
          omega

theorem flushDedents_dedents (stack : List Nat) (p : Position) (hne : stack ≠ []) :
    countTok .DEDENT (flushDedents stack p) + 1 = stack.length := by
  induction stack with
  | nil => exact absurd rfl hne
  | cons a rest ih =>
    rcases rest with _ | ⟨b, rest2⟩
    · simp [flushDedents, countTok]
    · rw [show flushDedents (a :: b :: rest2) p =
        ⟨.DEDENT, "", p⟩ :: flushDedents (b :: rest2) p from rfl]
      rw [countTok_cons]
      have := ih (by simp)
      simp at this ⊢
      omega

theorem flushDedents_indents (stack : List Nat) (p : Position) :
    countTok .INDENT (flushDedents stack p) = 0 := by
  induction stack with
  | nil => rfl
  | cons a rest ih =>
    rcases rest with _ | ⟨b, rest2⟩
    · rfl
    · rw [show flushDedents (a :: b :: rest2) p =
        ⟨.DEDENT, "", p⟩ :: flushDedents (b :: rest2) p from rfl]
      rw [countTok_cons, ih]
      simp

theorem ensureEof_counts (toks : List Token) (p : Position) (t : TokenType)
    (hne : t ≠ .EOF_TOKEN) :
    countTok t (ensureEof toks p) = countTok t toks := by
  unfold ensureEof
  rcases hlast : toks.getLast? with _ | last
  · have hnil : toks = [] := List.getLast?_eq_none_iff.mp hlast
    subst hnil
    dsimp only
    rw [countTok_singleton, if_neg (fun hh => hne hh.symm), countTok_nil]
  · dsimp only
    by_cases hl : last.type = .EOF_TOKEN
    · rw [if_pos hl]
    · rw [if_neg hl]
      rw [countTok_append, countTok_singleton, if_neg (fun hh => hne hh.symm)]
      omega

/-! ## Claim theorems -/

/-- C3, counterexample: the Boolean literal `False` does not evaluate to a
boolean value — `tokenToValue` falls into its default case and wraps the
lexeme in a String value, which is truthy. -/
theorem c3_counterexample :
    evalExpr 1 (.literal ⟨.BOOLEAN, "False", ⟨1, 5⟩⟩) initIState =
      .ok (.strV "False", { initIState with lastValue := .strV "False" }) ∧
    isTruthy (.strV "False") = true ∧
    Value.strV "False" ≠ .boolV false ∧ Value.strV "False" ≠ .boolV true :=
  ⟨rfl, rfl, fun h => Value.noConfusion h, fun h => Value.noConfusion h⟩

/-- C3, amended: evaluating a Literal whose token kind is Boolean yields
the String value of its lexeme (`tokenToValue` handles only INTEGER, FLOAT
and STRING; BOOLEAN falls into the default string case), so both `True`
and `False` evaluate to non-empty strings and are truthy. -/
theorem c3_boolean_literal_is_string (lex : String) (pos : Position)
    (f : Nat) (st : IState) :
    evalExpr (f + 1) (.literal ⟨.BOOLEAN, lex, pos⟩) st =
      .ok (.strV lex, { st with lastValue := .strV lex }) ∧
    isTruthy (.strV "True") = true ∧ isTruthy (.strV "False") = true :=
  ⟨rfl, rfl, rfl⟩

/-- C5, counterexample: the token stream of the program `break` (a lone
`break` at statement position followed by a newline) makes the parser fail
with "Expected expression" instead of producing a BreakStatement. -/
theorem c5_counterexample :
    tokenize 30 "break\n" =
      .ok [⟨.BREAK, "break", ⟨1, 6⟩⟩, ⟨.NEWLINE, "\n", ⟨2, 1⟩⟩,
           ⟨.EOF_TOKEN, "", ⟨2, 1⟩⟩] ∧
    parseProgram 30 [⟨.BREAK, "break", ⟨1, 6⟩⟩, ⟨.NEWLINE, "\n", ⟨2, 1⟩⟩,
                     ⟨.EOF_TOKEN, "", ⟨2, 1⟩⟩] =
      .error (.perr "Expected expression at line 1, column 6 (got 'break')") :=
  ⟨rfl, rfl⟩

/-- C5, amended: a statement position holding a `break`, `continue` or
`pass` keyword makes the parser fail: `Parser::statement` dispatches only
on DEF/IF/WHILE/FOR/RETURN, so the keyword falls through to the
expression-statement path, whose `primary` rule rejects it with
"Expected expression" — whatever tokens follow. -/
theorem c5_break_continue_pass_are_parse_errors (v : String) (p : Position)
    (rest : List Token) (f : Nat) :
    parseProgram (f + 16) (⟨.BREAK, v, p⟩ :: rest) =
      .error (parseErr ⟨⟨.BREAK, v, p⟩ :: rest, 0⟩ "Expected expression") ∧
    parseProgram (f + 16) (⟨.CONTINUE, v, p⟩ :: rest) =
      .error (parseErr ⟨⟨.CONTINUE, v, p⟩ :: rest, 0⟩ "Expected expression") ∧
    parseProgram (f + 16) (⟨.PASS, v, p⟩ :: rest) =
      .error (parseErr ⟨⟨.PASS, v, p⟩ :: rest, 0⟩ "Expected expression") :=
  ⟨rfl, rfl, rfl⟩

/-- C6, counterexample: `not 5` evaluates to `-5`, not to the operand
unchanged — `Interpreter::visit(UnaryExpression&)` never inspects the
operator and negates every `int64_t` operand. -/
theorem c6_counterexample :
    evalExpr 2 (.unaryE .NOT (.literal ⟨.INTEGER, "5", ⟨1, 5⟩⟩) ⟨1, 1⟩)
        initIState =
      .ok (.intV (-5), { initIState with lastValue := .intV (-5) }) ∧
    Value.intV (-5) ≠ .intV 5 :=
  ⟨rfl, by simp⟩

/-- C6, amended: evaluation of a unary expression ignores the operator
entirely: for `-` and for `not` alike, an `Int64` operand is negated and
any other operand is returned unchanged (`unaryResult`). -/
theorem c6_unary_ignores_operator (op : TokenType) (e : Expr) (p : Position)
    (f : Nat) (st st' : IState) (v : Value)
    (h : evalExpr f e st = .ok (v, st')) :
    evalExpr (f + 1) (.unaryE op e p) st =
      .ok (unaryResult v, { st' with lastValue := unaryResult v }) := by
  simp only [evalExpr, h]
  rfl

/-- C6, witness for `c6_unary_ignores_operator` at `- 7`. -/
theorem c6_witness :
    evalExpr 2 (.unaryE .MINUS (.literal ⟨.INTEGER, "7", ⟨1, 2⟩⟩) ⟨1, 1⟩)
        initIState =
      .ok (.intV (-7), { initIState with lastValue := .intV (-7) }) :=
  c6_unary_ignores_operator .MINUS (.literal ⟨.INTEGER, "7", ⟨1, 2⟩⟩) ⟨1, 1⟩ 1
    initIState { initIState with lastValue := .intV 7 } (.intV 7) rfl

/-- The token stream of `(1) = 2` (claim C8). -/
def c8tokens : List Token :=
  [⟨.LPAREN, "(", ⟨1, 2⟩⟩, ⟨.INTEGER, "1", ⟨1, 3⟩⟩, ⟨.RPAREN, ")", ⟨1, 4⟩⟩,
   ⟨.ASSIGN, "=", ⟨1, 6⟩⟩, ⟨.INTEGER, "2", ⟨1, 8⟩⟩, ⟨.EOF_TOKEN, "", ⟨1, 8⟩⟩]

/-- The AST the parser produces for `(1) = 2` (claim C8). -/
def c8prog : List Stmt :=
  [.exprStmt
     (.assignE (.literal ⟨.INTEGER, "1", ⟨1, 3⟩⟩)
               (.literal ⟨.INTEGER, "2", ⟨1, 8⟩⟩) .ASSIGN ⟨1, 8⟩)
     ⟨1, 8⟩]

/-- C8, counterexample: `(1) = 2` parses without a diagnostic — the parser
wraps the non-identifier target in an AssignmentExpression — and the
"Invalid assignment target" error only appears when the expression is
evaluated. -/
theorem c8_counterexample :
    tokenize 40 "(1) = 2" = .ok c8tokens ∧
    parseProgram 40 c8tokens = .ok c8prog ∧
    execStmtList 40 c8prog initIState =
      .error (.rte "Invalid assignment target",
              { initIState with lastValue := .intV 2 }) :=
  ⟨rfl, rfl, rfl⟩

/-- C8, amended: the parser accepts any left-hand expression for `=`
(shown on `(1) = 2` below); the non-identifier-target diagnostic is raised
by the interpreter's AssignmentExpression visitor at evaluation time,
after the right-hand side has been evaluated. -/
theorem c8_invalid_target_is_runtime_error :
    (∀ (target value : Expr) (op : TokenType) (p : Position) (f : Nat)
       (st st' : IState) (v : Value),
       (∀ n q, target ≠ .ident n q) →
       evalExpr f value st = .ok (v, st') →
       evalExpr (f + 1) (.assignE target value op p) st =
         .error (.rte "Invalid assignment target", st')) ∧
    parseProgram 40 c8tokens = .ok c8prog := by
  refine ⟨?_, rfl⟩
  intro target value op p f st st' v hni h
  cases target with
  | ident n q => exact absurd rfl (hni n q)
  | literal t => simp only [evalExpr, h]; rfl
  | binary a b c d => simp only [evalExpr, h]; rfl
  | unaryE a b c => simp only [evalExpr, h]; rfl
  | callE a b c => simp only [evalExpr, h]; rfl
  | member a b c => simp only [evalExpr, h]; rfl
  | assignE a b c d => simp only [evalExpr, h]; rfl
  | listE a b => simp only [evalExpr, h]; rfl
  | dictE a b => simp only [evalExpr, h]; rfl

/-- C8, witness for `c8_invalid_target_is_runtime_error` at `(1) = 2`. -/
theorem c8_witness :
    evalExpr 2 (.assignE (.literal ⟨.INTEGER, "1", ⟨1, 3⟩⟩)
                         (.literal ⟨.INTEGER, "2", ⟨1, 8⟩⟩) .ASSIGN ⟨1, 8⟩)
        initIState =
      .error (.rte "Invalid assignment target",
              { initIState with lastValue := .intV 2 }) :=
  c8_invalid_target_is_runtime_error.1 _ _ .ASSIGN ⟨1, 8⟩ 1 initIState
    { initIState with lastValue := .intV 2 } (.intV 2)
    (fun _ _ h => Expr.noConfusion h) rfl

/-- Writing a variable and reading it back in the same scope. -/
theorem varsGet_varsSet_self (l : List (String × Value)) (n : String) (v : Value) :
    varsGet (varsSet l n v) n = some v := by
  induction l with
  | nil => simp [varsSet, varsGet]
  | cons kv rest ih =>
    obtain ⟨k, w⟩ := kv
    by_cases h : k = n <;> simp [varsSet, varsGet, h, ih]

/-- `Environment::get` right after `Environment::define` on the same
environment yields the defined value. -/
theorem envGet_defineVar_self (heap : List EnvRec) (i : Nat) (n : String)
    (v : Value) (h : i < heap.length) :
    envGet (defineVar heap i n v) i n = .ok v := by
  unfold defineVar
  rw [List.getElem?_eq_getElem h]
  unfold envGet envGetAux
  rw [List.getElem?_set_eq_of_lt _ (by simpa using h)]
  simp [varsGet_varsSet_self]

/-- C9, counterexample: with `x := print` (a registered builtin) and
`E := 1`, the program `x = E; x` ends with last value
`"__builtin_print"`, not the value `1` of `E`: identifier evaluation
consults the builtin table before the environment. -/
theorem c9_counterexample :
    evalExpr 1 (.literal ⟨.INTEGER, "1", ⟨1, 9⟩⟩) initIState =
      .ok (.intV 1, { initIState with lastValue := .intV 1 }) ∧
    execStmtList 4
      [.exprStmt (.assignE (.ident "print" ⟨1, 1⟩)
                           (.literal ⟨.INTEGER, "1", ⟨1, 9⟩⟩) .ASSIGN ⟨1, 9⟩) ⟨1, 9⟩,
       .exprStmt (.ident "print" ⟨2, 1⟩) ⟨1, 1⟩] initIState =
      .ok { heap := [⟨none, [("__name__", .strV "__main__"), ("print", .intV 1)]⟩],
            cur := 0, output := [],
            lastValue := .strV "__builtin_print" } ∧
    Value.strV "__builtin_print" ≠ .intV 1 :=
  ⟨rfl, rfl, fun h => Value.noConfusion h⟩

/-- One evaluation step of an assignment whose target is an identifier:
the right-hand side is evaluated, then `Environment::define` binds it in
the current scope. -/
theorem evalExpr_assignE_ident (f : Nat) (x : String) (q p : Position)
    (E : Expr) (op : TokenType) (st st' : IState) (v : Value)
    (h : evalExpr f E st = .ok (v, st')) :
    evalExpr (f + 1) (.assignE (.ident x q) E op p) st =
      .ok (v, { st' with heap := defineVar st'.heap st'.cur x v,
                         lastValue := v }) := by
  simp only [evalExpr, h]
  rfl

/-- One evaluation step of a non-builtin identifier. -/
theorem evalExpr_ident_nonbuiltin (f : Nat) (n : String) (p : Position)
    (st : IState) (v : Value)
    (hb : isBuiltinName n = false)
    (hg : envGet st.heap st.cur n = .ok v) :
    evalExpr (f + 1) (.ident n p) st = .ok (v, { st with lastValue := v }) := by
  simp [evalExpr, hb, hg]

/-- One execution step of an expression statement. -/
theorem execStmt_exprStmt (f : Nat) (e : Expr) (p : Position)
    (st st' : IState) (v : Value) (h : evalExpr f e st = .ok (v, st')) :
    execStmt (f + 1) (.exprStmt e p) st = .ok st' := by
  simp only [execStmt, h]
  rfl

/-- C9, amended: for every identifier `x` that is NOT a registered builtin
name and every side-effect-free expression `E` (one whose evaluation
returns the state unchanged) with value `v`, the program `x = E; x` runs
without a diagnostic and its final `last_value` — the value
`Interpreter::interpret` returns — is `v`, the value of `E` alone. -/
theorem c9_assign_then_read (x : String) (E : Expr) (p1 p2 p3 p4 p5 : Position)
    (f : Nat) (st : IState) (v : Value)
    (hb : isBuiltinName x = false)
    (hwf : st.cur < st.heap.length)
    (hE : evalExpr (f + 1) E st = .ok (v, st)) :
    execStmtList (f + 4)
      [.exprStmt (.assignE (.ident x p1) E .ASSIGN p2) p3,
       .exprStmt (.ident x p4) p5] st =
      .ok { st with heap := defineVar st.heap st.cur x v, lastValue := v } ∧
    ({ st with heap := defineVar st.heap st.cur x v,
               lastValue := v } : IState).lastValue = v := by
  refine ⟨?_, rfl⟩
  have hA := evalExpr_assignE_ident (f + 1) x p1 p2 E .ASSIGN st st v hE
  have hB : execStmt (f + 3)
      (.exprStmt (.assignE (.ident x p1) E .ASSIGN p2) p3) st =
      .ok { st with heap := defineVar st.heap st.cur x v, lastValue := v } :=
    execStmt_exprStmt (f + 2) _ p3 st _ v hA
  have hC := evalExpr_ident_nonbuiltin f x p4
    { st with heap := defineVar st.heap st.cur x v, lastValue := v } v hb
    (envGet_defineVar_self st.heap st.cur x v hwf)
  have hD : execStmt (f + 2) (.exprStmt (.ident x p4) p5)
      { st with heap := defineVar st.heap st.cur x v, lastValue := v } =
      .ok { st with heap := defineVar st.heap st.cur x v, lastValue := v } :=
    execStmt_exprStmt (f + 1) _ p5 _ _ v hC
  have step1 : execStmtList (f + 4)
      [.exprStmt (.assignE (.ident x p1) E .ASSIGN p2) p3,
       .exprStmt (.ident x p4) p5] st =
      execStmtList (f + 3) [.exprStmt (.ident x p4) p5]
        { st with heap := defineVar st.heap st.cur x v, lastValue := v } := by
    simp only [execStmtList, hB]
    rfl
  have step2 : execStmtList (f + 3) [.exprStmt (.ident x p4) p5]
      { st with heap := defineVar st.heap st.cur x v, lastValue := v } =
      .ok { st with heap := defineVar st.heap st.cur x v, lastValue := v } := by
    simp only [execStmtList, hD]
    rfl
  rw [step1, step2]

/-- C9, witness for `c9_assign_then_read` with `x := y`, `E := 1`. -/
theorem c9_witness :
    execStmtList 4
      [.exprStmt (.assignE (.ident "y" ⟨1, 1⟩)
                           (.literal ⟨.INTEGER, "1", ⟨1, 5⟩⟩) .ASSIGN ⟨1, 5⟩) ⟨1, 5⟩,
       .exprStmt (.ident "y" ⟨2, 1⟩) ⟨1, 1⟩]
      { initIState with lastValue := .intV 1 } =
      .ok { heap := [⟨none, [("__name__", .strV "__main__"), ("y", .intV 1)]⟩],
            cur := 0, output := [], lastValue := .intV 1 } :=
  (c9_assign_then_read "y" (.literal ⟨.INTEGER, "1", ⟨1, 5⟩⟩)
    ⟨1, 1⟩ ⟨1, 5⟩ ⟨1, 5⟩ ⟨2, 1⟩ ⟨1, 1⟩ 0
    { initIState with lastValue := .intV 1 } (.intV 1)
    rfl (by decide) rfl).1

/-- C10: (a) an identifier carrying a registered builtin name evaluates to
the marker string `"__builtin_<name>"` in EVERY interpreter state — the
environment chain is never consulted, so no user binding can shadow a
builtin; (b) any String value of the form `"__builtin_" ++ name` with
`name` registered, used as a call's callee, dispatches to that builtin on
the evaluated arguments, however the string was produced. -/
theorem c10_builtins_shadow_and_dispatch :
    (∀ (n : String) (p : Position) (f : Nat) (st : IState),
       isBuiltinName n = true →
       evalExpr (f + 1) (.ident n p) st =
         .ok (.strV ("__builtin_" ++ n),
              { st with lastValue := .strV ("__builtin_" ++ n) })) ∧
    (∀ (n : String) (args : List Value) (f : Nat) (st : IState),
       isBuiltinName n = true →
       callValue (f + 1) (.strV ("__builtin_" ++ n)) args st =
         applyBuiltin n args st) := by
  constructor
  · intro n p f st h
    simp [evalExpr, h]
  · intro n args f st h
    have h1 : cppSubstr ("__builtin_" ++ n) 0 10 = "__builtin_" := rfl
    have h2 : cppSubstrFrom ("__builtin_" ++ n) 10 = n := rfl
    simp [callValue, h1, h2, h]

/-- C10, witness for both parts of `c10_builtins_shadow_and_dispatch`:
`print` resolves to its marker even in the initial state, and the marker
string for `len` invokes the `len` builtin. -/
theorem c10_witness :
    evalExpr 1 (.ident "print" ⟨1, 1⟩) initIState =
      .ok (.strV "__builtin_print",
           { initIState with lastValue := .strV "__builtin_print" }) ∧
    callValue 1 (.strV "__builtin_len") [.strV "ab"] initIState =
      applyBuiltin "len" [.strV "ab"] initIState :=
  ⟨c10_builtins_shadow_and_dispatch.1 "print" ⟨1, 1⟩ 0 initIState rfl,
   c10_builtins_shadow_and_dispatch.2 "len" [.strV "ab"] 0 initIState rfl⟩

/-- The token stream of `1/0` (claim C2). -/
def c2tokens : List Token :=
  [⟨.INTEGER, "1", ⟨1, 2⟩⟩, ⟨.DIVIDE, "/", ⟨1, 3⟩⟩, ⟨.INTEGER, "0", ⟨1, 4⟩⟩,
   ⟨.EOF_TOKEN, "", ⟨1, 4⟩⟩]

/-- The AST of `1/0` (claim C2). -/
def c2prog : List Stmt :=
  [.exprStmt
     (.binary (.literal ⟨.INTEGER, "1", ⟨1, 2⟩⟩) .DIVIDE
              (.literal ⟨.INTEGER, "0", ⟨1, 4⟩⟩) ⟨1, 4⟩) ⟨1, 4⟩]

set_option maxHeartbeats 1000000 in
/-- C2, counterexample: running `1/0` raises the runtime diagnostic
"Division by zero", yet the process exit code is 0, not 1 —
`Interpreter::interpret` catches the `RuntimeError` and `main` then
returns 0. -/
theorem c2_counterexample :
    tokenize 18 "1/0" = .ok c2tokens ∧
    parseProgram 18 c2tokens = .ok c2prog ∧
    execStmtList 18 c2prog initIState =
      .error (.rte "Division by zero", { initIState with lastValue := .intV 0 }) ∧
    runCaesar 18 "1/0" = some 0 :=
  ⟨rfl, rfl, rfl, rfl⟩

/-- C2, amended: the exit code is 1 on a lexer or parser diagnostic; it is
0 on clean completion AND on an interpreter runtime diagnostic, because
`Interpreter::interpret` catches `RuntimeError` internally (printing to
standard error) and returns normally, after which `main` returns 0. -/
theorem c2_exit_codes :
    (∀ (fuel : Nat) (src m : String),
       tokenize fuel src = .error (.err m) → runCaesar fuel src = some 1) ∧
    (∀ (fuel : Nat) (src : String) (toks : List Token) (m : String),
       tokenize fuel src = .ok toks → parseProgram fuel toks = .error (.perr m) →
       runCaesar fuel src = some 1) ∧
    (∀ (fuel : Nat) (src : String) (toks : List Token) (prog : List Stmt)
       (stF : IState),
       tokenize fuel src = .ok toks → parseProgram fuel toks = .ok prog →
       execStmtList fuel prog initIState = .ok stF →
       runCaesar fuel src = some 0) ∧
    (∀ (fuel : Nat) (src : String) (toks : List Token) (prog : List Stmt)
       (m : String) (stE : IState),
       tokenize fuel src = .ok toks → parseProgram fuel toks = .ok prog →
       execStmtList fuel prog initIState = .error (.rte m, stE) →
       runCaesar fuel src = some 0) := by
  refine ⟨?_, ?_, ?_, ?_⟩
  · intro fuel src m h
    simp [runCaesar, h]
  · intro fuel src toks m h1 h2
    simp [runCaesar, h1, h2]
  · intro fuel src toks prog stF h1 h2 h3
    simp [runCaesar, interpretProgram, h1, h2, h3]
  · intro fuel src toks prog m stE h1 h2 h3
    simp [runCaesar, interpretProgram, h1, h2, h3]

set_option maxHeartbeats 1000000 in
/-- C2, witness for all four parts of `c2_exit_codes`: a lexer diagnostic
(`?`), a parser diagnostic (`break`), a clean run (the empty program) and
a caught runtime diagnostic (`1/0`). -/
theorem c2_witness :
    runCaesar 10 "?" = some 1 ∧ runCaesar 17 "break\n" = some 1 ∧
    runCaesar 10 "" = some 0 ∧ runCaesar 18 "1/0" = some 0 :=
  ⟨c2_exit_codes.1 10 "?" "Unexpected character: ? at line 1, column 2" rfl,
   c2_exit_codes.2.1 17 "break\n"
     [⟨.BREAK, "break", ⟨1, 6⟩⟩, ⟨.NEWLINE, "\n", ⟨2, 1⟩⟩, ⟨.EOF_TOKEN, "", ⟨2, 1⟩⟩]
     "Expected expression at line 1, column 6 (got 'break')" rfl rfl,
   c2_exit_codes.2.2.1 10 "" [⟨.EOF_TOKEN, "", ⟨1, 1⟩⟩] [] initIState rfl rfl rfl,
   c2_exit_codes.2.2.2 18 "1/0" c2tokens c2prog "Division by zero"
     { initIState with lastValue := .intV 0 } rfl rfl rfl⟩

/-- The token stream of `def g(a, b=5):\n    return a\n` (claim C4). -/
def c4tokens : List Token :=
  [⟨.DEF, "def", ⟨1, 4⟩⟩, ⟨.IDENTIFIER, "g", ⟨1, 6⟩⟩, ⟨.LPAREN, "(", ⟨1, 7⟩⟩,
   ⟨.IDENTIFIER, "a", ⟨1, 8⟩⟩, ⟨.COMMA, ",", ⟨1, 9⟩⟩,
   ⟨.IDENTIFIER, "b", ⟨1, 11⟩⟩, ⟨.ASSIGN, "=", ⟨1, 12⟩⟩,
   ⟨.INTEGER, "5", ⟨1, 13⟩⟩, ⟨.RPAREN, ")", ⟨1, 14⟩⟩, ⟨.COLON, ":", ⟨1, 15⟩⟩,
   ⟨.NEWLINE, "\n", ⟨2, 1⟩⟩, ⟨.INDENT, "", ⟨2, 5⟩⟩,
   ⟨.RETURN, "return", ⟨2, 11⟩⟩, ⟨.IDENTIFIER, "a", ⟨2, 13⟩⟩,
   ⟨.NEWLINE, "\n", ⟨3, 1⟩⟩, ⟨.DEDENT, "", ⟨3, 1⟩⟩, ⟨.EOF_TOKEN, "", ⟨3, 1⟩⟩]

/-- C4, counterexample: the token stream of `def g(a, b=5):\n    return a\n`
makes the parse fail with "Expected ')' after parameters" — the parameter
list accepts only identifiers and commas, so the default `=` is rejected. -/
theorem c4_counterexample :
    parseProgram 10 c4tokens =
      .error (.perr "Expected ')' after parameters at line 1, column 12 (got '=')") :=
  rfl

set_option maxHeartbeats 1000000 in
/-- C4, amended: `Parser::functionDefinition` (entered by
`Parser::statement` with the cursor just past the `def` keyword) consumes
only IDENTIFIER and COMMA tokens in the parameter list: an `=` after a
parameter name is a parse diagnostic whatever follows it (first part),
while an identifier-comma sequence is consumed and its names recorded
(second part); the stored parameters carry no default expression.  The
default-evaluation code in `CallableFunction::call` does exist and
evaluates a stored default in the closure environment (third part) — but
the parser can never produce a parameter carrying one. -/
theorem c4_parameter_lists :
    (∀ (dv v1 lv v2 av : String) (dp q1 lp q2 pA : Position)
       (rest : List Token) (f : Nat),
       functionDefinitionP (f + 2)
         ⟨⟨.DEF, dv, dp⟩ :: ⟨.IDENTIFIER, v1, q1⟩ :: ⟨.LPAREN, lv, lp⟩ ::
          ⟨.IDENTIFIER, v2, q2⟩ :: ⟨.ASSIGN, av, pA⟩ :: rest, 1⟩ =
         .error (parseErr
           ⟨⟨.DEF, dv, dp⟩ :: ⟨.IDENTIFIER, v1, q1⟩ :: ⟨.LPAREN, lv, lp⟩ ::
            ⟨.IDENTIFIER, v2, q2⟩ :: ⟨.ASSIGN, av, pA⟩ :: rest, 4⟩
           "Expected ')' after parameters")) ∧
    (∀ (v1 cv v2 rv : String) (q1 cp q2 rp : Position)
       (rest : List Token) (f : Nat),
       paramLoop (f + 2)
         ⟨[⟨.IDENTIFIER, v1, q1⟩, ⟨.COMMA, cv, cp⟩, ⟨.IDENTIFIER, v2, q2⟩,
           ⟨.RPAREN, rv, rp⟩] ++ rest, 0⟩ [] =
         .ok ([v1, v2],
              ⟨[⟨.IDENTIFIER, v1, q1⟩, ⟨.COMMA, cv, cp⟩, ⟨.IDENTIFIER, v2, q2⟩,
                ⟨.RPAREN, rv, rp⟩] ++ rest, 3⟩)) ∧
    bindParams 2 [⟨"b", some (.literal ⟨.INTEGER, "5", ⟨1, 13⟩⟩)⟩] 0 [] 1 0
      { heap := [⟨none, []⟩, ⟨some 0, []⟩], cur := 0, output := [],
        lastValue := .nullV } =
      .ok { heap := [⟨none, []⟩, ⟨some 0, [("b", .intV 5)]⟩], cur := 0,
            output := [], lastValue := .intV 5 } :=
  ⟨fun _ _ _ _ _ _ _ _ _ _ _ _ => rfl,
   fun _ _ _ _ _ _ _ _ _ _ => rfl, rfl⟩

/-- The last element of `ensureEof` is always an `EOF_TOKEN`. -/
theorem ensureEof_getLast (l : List Token) (p : Position) :
    ∃ t, (ensureEof l p).getLast? = some t ∧ t.type = .EOF_TOKEN := by
  unfold ensureEof
  cases hl : l.getLast? with
  | none => exact ⟨⟨.EOF_TOKEN, "", p⟩, rfl, rfl⟩
  | some t =>
    by_cases ht : t.type = .EOF_TOKEN
    · exact ⟨t, by simp [ht, hl], ht⟩
    · refine ⟨⟨.EOF_TOKEN, "", p⟩, ?_, rfl⟩
      simp [ht, List.getLast?_concat]

/-- C7, amended: every successful tokenization produces a nonempty stream
whose last token is an `EOF_TOKEN` — the final step of `Lexer::tokenize`
appends one unless the stream already ends with one.  (The "exactly one"
part of the claim is false: see the counterexample.) -/
theorem c7_stream_ends_with_eof (fuel : Nat) (src : String) (toks : List Token)
    (h : tokenize fuel src = .ok toks) :
    ∃ t, toks.getLast? = some t ∧ t.type = .EOF_TOKEN := by
  unfold tokenize at h
  cases htl : tokenizeLoop fuel (initLexState src) [] with
  | error e => rw [htl] at h; cases h
  | ok pair =>
    rw [htl] at h
    obtain ⟨l, st⟩ := pair
    simp only [Except.ok.injEq] at h
    rw [← h]
    exact ensureEof_getLast _ _

set_option maxHeartbeats 1000000 in
/-- C7, witness for `c7_stream_ends_with_eof` on `1/0`. -/
theorem c7_witness :
    ∃ t, (c2tokens).getLast? = some t ∧ t.type = .EOF_TOKEN :=
  c7_stream_ends_with_eof 18 "1/0" c2tokens rfl

/-- The token stream of `if a:\n b\n ` — a trailing whitespace-only line
under an open indent (claim C7). -/
def c7tokens : List Token :=
  [⟨.IF, "if", ⟨1, 3⟩⟩, ⟨.IDENTIFIER, "a", ⟨1, 5⟩⟩, ⟨.COLON, ":", ⟨1, 6⟩⟩,
   ⟨.NEWLINE, "\n", ⟨2, 1⟩⟩, ⟨.INDENT, "", ⟨2, 2⟩⟩,
   ⟨.IDENTIFIER, "b", ⟨2, 3⟩⟩, ⟨.NEWLINE, "\n", ⟨3, 1⟩⟩,
   ⟨.EOF_TOKEN, "", ⟨3, 2⟩⟩, ⟨.DEDENT, "", ⟨3, 2⟩⟩, ⟨.EOF_TOKEN, "", ⟨3, 2⟩⟩]

/-- C7, counterexample: when the final physical line is whitespace-only
while the indent stack is non-trivial, the stream contains TWO `EOF_TOKEN`s
and the first of them is not the last token (`..., EOF, DEDENT, EOF`). -/
theorem c7_counterexample :
    tokenize 12 "if a:\n b\n " = .ok c7tokens ∧
    countTok .EOF_TOKEN c7tokens = 2 ∧
    c7tokens[7]?.map Token.type = some .EOF_TOKEN := by
  refine ⟨?_, rfl, rfl⟩
  have hloop : tokenizeLoop 12 (initLexState "if a:\n b\n ") [] =
      .ok ([⟨.IF, "if", ⟨1, 3⟩⟩, ⟨.IDENTIFIER, "a", ⟨1, 5⟩⟩, ⟨.COLON, ":", ⟨1, 6⟩⟩,
            ⟨.NEWLINE, "\n", ⟨2, 1⟩⟩, ⟨.INDENT, "", ⟨2, 2⟩⟩,
            ⟨.IDENTIFIER, "b", ⟨2, 3⟩⟩, ⟨.NEWLINE, "\n", ⟨3, 1⟩⟩,
            ⟨.EOF_TOKEN, "", ⟨3, 2⟩⟩],
           ⟨("" : String).data, ⟨3, 2⟩, false, [1, 0]⟩) := by
    have h0 : nextToken 12 ⟨("if a:\n b\n " : String).data, ⟨1, 1⟩, true, [0]⟩ = .ok (⟨.IF, "if", ⟨1, 3⟩⟩, ⟨(" a:\n b\n " : String).data, ⟨1, 3⟩, false, [0]⟩) := rfl
    have h1 : nextToken 11 ⟨(" a:\n b\n " : String).data, ⟨1, 3⟩, false, [0]⟩ = .ok (⟨.IDENTIFIER, "a", ⟨1, 5⟩⟩, ⟨(":\n b\n " : String).data, ⟨1, 5⟩, false, [0]⟩) := rfl
    have h2 : nextToken 10 ⟨(":\n b\n " : String).data, ⟨1, 5⟩, false, [0]⟩ = .ok (⟨.COLON, ":", ⟨1, 6⟩⟩, ⟨("\n b\n " : String).data, ⟨1, 6⟩, false, [0]⟩) := rfl
    have h3 : nextToken 9 ⟨("\n b\n " : String).data, ⟨1, 6⟩, false, [0]⟩ = .ok (⟨.NEWLINE, "\n", ⟨2, 1⟩⟩, ⟨(" b\n " : String).data, ⟨2, 1⟩, true, [0]⟩) := rfl
    have h4 : nextToken 8 ⟨(" b\n " : String).data, ⟨2, 1⟩, true, [0]⟩ = .ok (⟨.INDENT, "", ⟨2, 2⟩⟩, ⟨("b\n " : String).data, ⟨2, 2⟩, false, [1, 0]⟩) := rfl
    have h5 : nextToken 7 ⟨("b\n " : String).data, ⟨2, 2⟩, false, [1, 0]⟩ = .ok (⟨.IDENTIFIER, "b", ⟨2, 3⟩⟩, ⟨("\n " : String).data, ⟨2, 3⟩, false, [1, 0]⟩) := rfl
    have h6 : nextToken 6 ⟨("\n " : String).data, ⟨2, 3⟩, false, [1, 0]⟩ = .ok (⟨.NEWLINE, "\n", ⟨3, 1⟩⟩, ⟨(" " : String).data, ⟨3, 1⟩, true, [1, 0]⟩) := rfl
    have h7 : nextToken 5 ⟨(" " : String).data, ⟨3, 1⟩, true, [1, 0]⟩ = .ok (⟨.EOF_TOKEN, "", ⟨3, 2⟩⟩, ⟨("" : String).data, ⟨3, 2⟩, false, [1, 0]⟩) := rfl
    calc tokenizeLoop 12 (initLexState "if a:\n b\n ") []
        = tokenizeLoop 11 ⟨(" a:\n b\n " : String).data, ⟨1, 3⟩, false, [0]⟩ [⟨.IF, "if", ⟨1, 3⟩⟩] := tokenizeLoop_step 11 ⟨("if a:\n b\n " : String).data, ⟨1, 1⟩, true, [0]⟩ ⟨(" a:\n b\n " : String).data, ⟨1, 3⟩, false, [0]⟩ [] ⟨.IF, "if", ⟨1, 3⟩⟩ rfl h0 (by decide)
      _ = tokenizeLoop 10 ⟨(":\n b\n " : String).data, ⟨1, 5⟩, false, [0]⟩ [⟨.IF, "if", ⟨1, 3⟩⟩, ⟨.IDENTIFIER, "a", ⟨1, 5⟩⟩] := tokenizeLoop_step 10 ⟨(" a:\n b\n " : String).data, ⟨1, 3⟩, false, [0]⟩ ⟨(":\n b\n " : String).data, ⟨1, 5⟩, false, [0]⟩ [⟨.IF, "if", ⟨1, 3⟩⟩] ⟨.IDENTIFIER, "a", ⟨1, 5⟩⟩ rfl h1 (by decide)
      _ = tokenizeLoop 9 ⟨("\n b\n " : String).data, ⟨1, 6⟩, false, [0]⟩ [⟨.IF, "if", ⟨1, 3⟩⟩, ⟨.IDENTIFIER, "a", ⟨1, 5⟩⟩, ⟨.COLON, ":", ⟨1, 6⟩⟩] := tokenizeLoop_step 9 ⟨(":\n b\n " : String).data, ⟨1, 5⟩, false, [0]⟩ ⟨("\n b\n " : String).data, ⟨1, 6⟩, false, [0]⟩ [⟨.IF, "if", ⟨1, 3⟩⟩, ⟨.IDENTIFIER, "a", ⟨1, 5⟩⟩] ⟨.COLON, ":", ⟨1, 6⟩⟩ rfl h2 (by decide)
      _ = tokenizeLoop 8 ⟨(" b\n " : String).data, ⟨2, 1⟩, true, [0]⟩ [⟨.IF, "if", ⟨1, 3⟩⟩, ⟨.IDENTIFIER, "a", ⟨1, 5⟩⟩, ⟨.COLON, ":", ⟨1, 6⟩⟩, ⟨.NEWLINE, "\n", ⟨2, 1⟩⟩] := tokenizeLoop_step 8 ⟨("\n b\n " : String).data, ⟨1, 6⟩, false, [0]⟩ ⟨(" b\n " : String).data, ⟨2, 1⟩, true, [0]⟩ [⟨.IF, "if", ⟨1, 3⟩⟩, ⟨.IDENTIFIER, "a", ⟨1, 5⟩⟩, ⟨.COLON, ":", ⟨1, 6⟩⟩] ⟨.NEWLINE, "\n", ⟨2, 1⟩⟩ rfl h3 (by decide)
      _ = tokenizeLoop 7 ⟨("b\n " : String).data, ⟨2, 2⟩, false, [1, 0]⟩ [⟨.IF, "if", ⟨1, 3⟩⟩, ⟨.IDENTIFIER, "a", ⟨1, 5⟩⟩, ⟨.COLON, ":", ⟨1, 6⟩⟩, ⟨.NEWLINE, "\n", ⟨2, 1⟩⟩, ⟨.INDENT, "", ⟨2, 2⟩⟩] := tokenizeLoop_step 7 ⟨(" b\n " : String).data, ⟨2, 1⟩, true, [0]⟩ ⟨("b\n " : String).data, ⟨2, 2⟩, false, [1, 0]⟩ [⟨.IF, "if", ⟨1, 3⟩⟩, ⟨.IDENTIFIER, "a", ⟨1, 5⟩⟩, ⟨.COLON, ":", ⟨1, 6⟩⟩, ⟨.NEWLINE, "\n", ⟨2, 1⟩⟩] ⟨.INDENT, "", ⟨2, 2⟩⟩ rfl h4 (by decide)
      _ = tokenizeLoop 6 ⟨("\n " : String).data, ⟨2, 3⟩, false, [1, 0]⟩ [⟨.IF, "if", ⟨1, 3⟩⟩, ⟨.IDENTIFIER, "a", ⟨1, 5⟩⟩, ⟨.COLON, ":", ⟨1, 6⟩⟩, ⟨.NEWLINE, "\n", ⟨2, 1⟩⟩, ⟨.INDENT, "", ⟨2, 2⟩⟩, ⟨.IDENTIFIER, "b", ⟨2, 3⟩⟩] := tokenizeLoop_step 6 ⟨("b\n " : String).data, ⟨2, 2⟩, false, [1, 0]⟩ ⟨("\n " : String).data, ⟨2, 3⟩, false, [1, 0]⟩ [⟨.IF, "if", ⟨1, 3⟩⟩, ⟨.IDENTIFIER, "a", ⟨1, 5⟩⟩, ⟨.COLON, ":", ⟨1, 6⟩⟩, ⟨.NEWLINE, "\n", ⟨2, 1⟩⟩, ⟨.INDENT, "", ⟨2, 2⟩⟩] ⟨.IDENTIFIER, "b", ⟨2, 3⟩⟩ rfl h5 (by decide)
      _ = tokenizeLoop 5 ⟨(" " : String).data, ⟨3, 1⟩, true, [1, 0]⟩ [⟨.IF, "if", ⟨1, 3⟩⟩, ⟨.IDENTIFIER, "a", ⟨1, 5⟩⟩, ⟨.COLON, ":", ⟨1, 6⟩⟩, ⟨.NEWLINE, "\n", ⟨2, 1⟩⟩, ⟨.INDENT, "", ⟨2, 2⟩⟩, ⟨.IDENTIFIER, "b", ⟨2, 3⟩⟩, ⟨.NEWLINE, "\n", ⟨3, 1⟩⟩] := tokenizeLoop_step 5 ⟨("\n " : String).data, ⟨2, 3⟩, false, [1, 0]⟩ ⟨(" " : String).data, ⟨3, 1⟩, true, [1, 0]⟩ [⟨.IF, "if", ⟨1, 3⟩⟩, ⟨.IDENTIFIER, "a", ⟨1, 5⟩⟩, ⟨.COLON, ":", ⟨1, 6⟩⟩, ⟨.NEWLINE, "\n", ⟨2, 1⟩⟩, ⟨.INDENT, "", ⟨2, 2⟩⟩, ⟨.IDENTIFIER, "b", ⟨2, 3⟩⟩] ⟨.NEWLINE, "\n", ⟨3, 1⟩⟩ rfl h6 (by decide)
      _ = .ok ([⟨.IF, "if", ⟨1, 3⟩⟩, ⟨.IDENTIFIER, "a", ⟨1, 5⟩⟩, ⟨.COLON, ":", ⟨1, 6⟩⟩, ⟨.NEWLINE, "\n", ⟨2, 1⟩⟩, ⟨.INDENT, "", ⟨2, 2⟩⟩, ⟨.IDENTIFIER, "b", ⟨2, 3⟩⟩, ⟨.NEWLINE, "\n", ⟨3, 1⟩⟩, ⟨.EOF_TOKEN, "", ⟨3, 2⟩⟩], ⟨("" : String).data, ⟨3, 2⟩, false, [1, 0]⟩) := tokenizeLoop_eof 4 ⟨(" " : String).data, ⟨3, 1⟩, true, [1, 0]⟩ ⟨("" : String).data, ⟨3, 2⟩, false, [1, 0]⟩ [⟨.IF, "if", ⟨1, 3⟩⟩, ⟨.IDENTIFIER, "a", ⟨1, 5⟩⟩, ⟨.COLON, ":", ⟨1, 6⟩⟩, ⟨.NEWLINE, "\n", ⟨2, 1⟩⟩, ⟨.INDENT, "", ⟨2, 2⟩⟩, ⟨.IDENTIFIER, "b", ⟨2, 3⟩⟩, ⟨.NEWLINE, "\n", ⟨3, 1⟩⟩] ⟨.EOF_TOKEN, "", ⟨3, 2⟩⟩ rfl h7 rfl
  unfold tokenize
  rw [hloop]
  rfl

/-- The token stream of `if a:\n if b:\n  c\nd` (claim C1): two INDENTs
but only one DEDENT token — `Lexer::nextToken` returns only the first of
the two DEDENTs `handleIndentation` produced for the dedent to column 0
and drops the other, although the indent stack was popped twice. -/
def c1tokens : List Token :=
  [⟨.IF, "if", ⟨1, 3⟩⟩, ⟨.IDENTIFIER, "a", ⟨1, 5⟩⟩, ⟨.COLON, ":", ⟨1, 6⟩⟩,
   ⟨.NEWLINE, "\n", ⟨2, 1⟩⟩, ⟨.INDENT, "", ⟨2, 2⟩⟩,
   ⟨.IF, "if", ⟨2, 4⟩⟩, ⟨.IDENTIFIER, "b", ⟨2, 6⟩⟩, ⟨.COLON, ":", ⟨2, 7⟩⟩,
   ⟨.NEWLINE, "\n", ⟨3, 1⟩⟩, ⟨.INDENT, "", ⟨3, 3⟩⟩,
   ⟨.IDENTIFIER, "c", ⟨3, 4⟩⟩, ⟨.NEWLINE, "\n", ⟨4, 1⟩⟩,
   ⟨.DEDENT, "", ⟨4, 1⟩⟩, ⟨.IDENTIFIER, "d", ⟨4, 2⟩⟩, ⟨.EOF_TOKEN, "", ⟨4, 2⟩⟩]

/-- C1, counterexample: the source `if a:\n if b:\n  c\nd` tokenizes
without a diagnostic into a stream with 2 INDENT tokens but only 1 DEDENT
token: the two counts are not equal. -/
theorem c1_counterexample :
    tokenize 18 "if a:\n if b:\n  c\nd" = .ok c1tokens ∧
    countTok .INDENT c1tokens = 2 ∧ countTok .DEDENT c1tokens = 1 := by
  refine ⟨?_, rfl, rfl⟩
  have hloop : tokenizeLoop 18 (initLexState "if a:\n if b:\n  c\nd") [] =
      .ok ([⟨.IF, "if", ⟨1, 3⟩⟩, ⟨.IDENTIFIER, "a", ⟨1, 5⟩⟩, ⟨.COLON, ":", ⟨1, 6⟩⟩,
            ⟨.NEWLINE, "\n", ⟨2, 1⟩⟩, ⟨.INDENT, "", ⟨2, 2⟩⟩,
            ⟨.IF, "if", ⟨2, 4⟩⟩, ⟨.IDENTIFIER, "b", ⟨2, 6⟩⟩, ⟨.COLON, ":", ⟨2, 7⟩⟩,
            ⟨.NEWLINE, "\n", ⟨3, 1⟩⟩, ⟨.INDENT, "", ⟨3, 3⟩⟩,
            ⟨.IDENTIFIER, "c", ⟨3, 4⟩⟩, ⟨.NEWLINE, "\n", ⟨4, 1⟩⟩,
            ⟨.DEDENT, "", ⟨4, 1⟩⟩, ⟨.IDENTIFIER, "d", ⟨4, 2⟩⟩],
           ⟨("" : String).data, ⟨4, 2⟩, false, [0]⟩) := by
    have h0 : nextToken 18 ⟨("if a:\n if b:\n  c\nd" : String).data, ⟨1, 1⟩, true, [0]⟩ = .ok (⟨.IF, "if", ⟨1, 3⟩⟩, ⟨(" a:\n if b:\n  c\nd" : String).data, ⟨1, 3⟩, false, [0]⟩) := rfl
    have h1 : nextToken 17 ⟨(" a:\n if b:\n  c\nd" : String).data, ⟨1, 3⟩, false, [0]⟩ = .ok (⟨.IDENTIFIER, "a", ⟨1, 5⟩⟩, ⟨(":\n if b:\n  c\nd" : String).data, ⟨1, 5⟩, false, [0]⟩) := rfl
    have h2 : nextToken 16 ⟨(":\n if b:\n  c\nd" : String).data, ⟨1, 5⟩, false, [0]⟩ = .ok (⟨.COLON, ":", ⟨1, 6⟩⟩, ⟨("\n if b:\n  c\nd" : String).data, ⟨1, 6⟩, false, [0]⟩) := rfl
    have h3 : nextToken 15 ⟨("\n if b:\n  c\nd" : String).data, ⟨1, 6⟩, false, [0]⟩ = .ok (⟨.NEWLINE, "\n", ⟨2, 1⟩⟩, ⟨(" if b:\n  c\nd" : String).data, ⟨2, 1⟩, true, [0]⟩) := rfl
    have h4 : nextToken 14 ⟨(" if b:\n  c\nd" : String).data, ⟨2, 1⟩, true, [0]⟩ = .ok (⟨.INDENT, "", ⟨2, 2⟩⟩, ⟨("if b:\n  c\nd" : String).data, ⟨2, 2⟩, false, [1, 0]⟩) := rfl
    have h5 : nextToken 13 ⟨("if b:\n  c\nd" : String).data, ⟨2, 2⟩, false, [1, 0]⟩ = .ok (⟨.IF, "if", ⟨2, 4⟩⟩, ⟨(" b:\n  c\nd" : String).data, ⟨2, 4⟩, false, [1, 0]⟩) := rfl
    have h6 : nextToken 12 ⟨(" b:\n  c\nd" : String).data, ⟨2, 4⟩, false, [1, 0]⟩ = .ok (⟨.IDENTIFIER, "b", ⟨2, 6⟩⟩, ⟨(":\n  c\nd" : String).data, ⟨2, 6⟩, false, [1, 0]⟩) := rfl
    have h7 : nextToken 11 ⟨(":\n  c\nd" : String).data, ⟨2, 6⟩, false, [1, 0]⟩ = .ok (⟨.COLON, ":", ⟨2, 7⟩⟩, ⟨("\n  c\nd" : String).data, ⟨2, 7⟩, false, [1, 0]⟩) := rfl
    have h8 : nextToken 10 ⟨("\n  c\nd" : String).data, ⟨2, 7⟩, false, [1, 0]⟩ = .ok (⟨.NEWLINE, "\n", ⟨3, 1⟩⟩, ⟨("  c\nd" : String).data, ⟨3, 1⟩, true, [1, 0]⟩) := rfl
    have h9 : nextToken 9 ⟨("  c\nd" : String).data, ⟨3, 1⟩, true, [1, 0]⟩ = .ok (⟨.INDENT, "", ⟨3, 3⟩⟩, ⟨("c\nd" : String).data, ⟨3, 3⟩, false, [2, 1, 0]⟩) := rfl
    have h10 : nextToken 8 ⟨("c\nd" : String).data, ⟨3, 3⟩, false, [2, 1, 0]⟩ = .ok (⟨.IDENTIFIER, "c", ⟨3, 4⟩⟩, ⟨("\nd" : String).data, ⟨3, 4⟩, false, [2, 1, 0]⟩) := rfl
    have h11 : nextToken 7 ⟨("\nd" : String).data, ⟨3, 4⟩, false, [2, 1, 0]⟩ = .ok (⟨.NEWLINE, "\n", ⟨4, 1⟩⟩, ⟨("d" : String).data, ⟨4, 1⟩, true, [2, 1, 0]⟩) := rfl
    have h12 : nextToken 6 ⟨("d" : String).data, ⟨4, 1⟩, true, [2, 1, 0]⟩ = .ok (⟨.DEDENT, "", ⟨4, 1⟩⟩, ⟨("d" : String).data, ⟨4, 1⟩, false, [0]⟩) := rfl
    have h13 : nextToken 5 ⟨("d" : String).data, ⟨4, 1⟩, false, [0]⟩ = .ok (⟨.IDENTIFIER, "d", ⟨4, 2⟩⟩, ⟨("" : String).data, ⟨4, 2⟩, false, [0]⟩) := rfl
    calc tokenizeLoop 18 (initLexState "if a:\n if b:\n  c\nd") []
        = tokenizeLoop 17 ⟨(" a:\n if b:\n  c\nd" : String).data, ⟨1, 3⟩, false, [0]⟩ [⟨.IF, "if", ⟨1, 3⟩⟩] := tokenizeLoop_step 17 ⟨("if a:\n if b:\n  c\nd" : String).data, ⟨1, 1⟩, true, [0]⟩ ⟨(" a:\n if b:\n  c\nd" : String).data, ⟨1, 3⟩, false, [0]⟩ [] ⟨.IF, "if", ⟨1, 3⟩⟩ rfl h0 (by decide)
      _ = tokenizeLoop 16 ⟨(":\n if b:\n  c\nd" : String).data, ⟨1, 5⟩, false, [0]⟩ [⟨.IF, "if", ⟨1, 3⟩⟩, ⟨.IDENTIFIER, "a", ⟨1, 5⟩⟩] := tokenizeLoop_step 16 ⟨(" a:\n if b:\n  c\nd" : String).data, ⟨1, 3⟩, false, [0]⟩ ⟨(":\n if b:\n  c\nd" : String).data, ⟨1, 5⟩, false, [0]⟩ [⟨.IF, "if", ⟨1, 3⟩⟩] ⟨.IDENTIFIER, "a", ⟨1, 5⟩⟩ rfl h1 (by decide)
      _ = tokenizeLoop 15 ⟨("\n if b:\n  c\nd" : String).data, ⟨1, 6⟩, false, [0]⟩ [⟨.IF, "if", ⟨1, 3⟩⟩, ⟨.IDENTIFIER, "a", ⟨1, 5⟩⟩, ⟨.COLON, ":", ⟨1, 6⟩⟩] := tokenizeLoop_step 15 ⟨(":\n if b:\n  c\nd" : String).data, ⟨1, 5⟩, false, [0]⟩ ⟨("\n if b:\n  c\nd" : String).data, ⟨1, 6⟩, false, [0]⟩ [⟨.IF, "if", ⟨1, 3⟩⟩, ⟨.IDENTIFIER, "a", ⟨1, 5⟩⟩] ⟨.COLON, ":", ⟨1, 6⟩⟩ rfl h2 (by decide)
      _ = tokenizeLoop 14 ⟨(" if b:\n  c\nd" : String).data, ⟨2, 1⟩, true, [0]⟩ [⟨.IF, "if", ⟨1, 3⟩⟩, ⟨.IDENTIFIER, "a", ⟨1, 5⟩⟩, ⟨.COLON, ":", ⟨1, 6⟩⟩, ⟨.NEWLINE, "\n", ⟨2, 1⟩⟩] := tokenizeLoop_step 14 ⟨("\n if b:\n  c\nd" : String).data, ⟨1, 6⟩, false, [0]⟩ ⟨(" if b:\n  c\nd" : String).data, ⟨2, 1⟩, true, [0]⟩ [⟨.IF, "if", ⟨1, 3⟩⟩, ⟨.IDENTIFIER, "a", ⟨1, 5⟩⟩, ⟨.COLON, ":", ⟨1, 6⟩⟩] ⟨.NEWLINE, "\n", ⟨2, 1⟩⟩ rfl h3 (by decide)
      _ = tokenizeLoop 13 ⟨("if b:\n  c\nd" : String).data, ⟨2, 2⟩, false, [1, 0]⟩ [⟨.IF, "if", ⟨1, 3⟩⟩, ⟨.IDENTIFIER, "a", ⟨1, 5⟩⟩, ⟨.COLON, ":", ⟨1, 6⟩⟩, ⟨.NEWLINE, "\n", ⟨2, 1⟩⟩, ⟨.INDENT, "", ⟨2, 2⟩⟩] := tokenizeLoop_step 13 ⟨(" if b:\n  c\nd" : String).data, ⟨2, 1⟩, true, [0]⟩ ⟨("if b:\n  c\nd" : String).data, ⟨2, 2⟩, false, [1, 0]⟩ [⟨.IF, "if", ⟨1, 3⟩⟩, ⟨.IDENTIFIER, "a", ⟨1, 5⟩⟩, ⟨.COLON, ":", ⟨1, 6⟩⟩, ⟨.NEWLINE, "\n", ⟨2, 1⟩⟩] ⟨.INDENT, "", ⟨2, 2⟩⟩ rfl h4 (by decide)
      _ = tokenizeLoop 12 ⟨(" b:\n  c\nd" : String).data, ⟨2, 4⟩, false, [1, 0]⟩ [⟨.IF, "if", ⟨1, 3⟩⟩, ⟨.IDENTIFIER, "a", ⟨1, 5⟩⟩, ⟨.COLON, ":", ⟨1, 6⟩⟩, ⟨.NEWLINE, "\n", ⟨2, 1⟩⟩, ⟨.INDENT, "", ⟨2, 2⟩⟩, ⟨.IF, "if", ⟨2, 4⟩⟩] := tokenizeLoop_step 12 ⟨("if b:\n  c\nd" : String).data, ⟨2, 2⟩, false, [1, 0]⟩ ⟨(" b:\n  c\nd" : String).data, ⟨2, 4⟩, false, [1, 0]⟩ [⟨.IF, "if", ⟨1, 3⟩⟩, ⟨.IDENTIFIER, "a", ⟨1, 5⟩⟩, ⟨.COLON, ":", ⟨1, 6⟩⟩, ⟨.NEWLINE, "\n", ⟨2, 1⟩⟩, ⟨.INDENT, "", ⟨2, 2⟩⟩] ⟨.IF, "if", ⟨2, 4⟩⟩ rfl h5 (by decide)
      _ = tokenizeLoop 11 ⟨(":\n  c\nd" : String).data, ⟨2, 6⟩, false, [1, 0]⟩ [⟨.IF, "if", ⟨1, 3⟩⟩, ⟨.IDENTIFIER, "a", ⟨1, 5⟩⟩, ⟨.COLON, ":", ⟨1, 6⟩⟩, ⟨.NEWLINE, "\n", ⟨2, 1⟩⟩, ⟨.INDENT, "", ⟨2, 2⟩⟩, ⟨.IF, "if", ⟨2, 4⟩⟩, ⟨.IDENTIFIER, "b", ⟨2, 6⟩⟩] := tokenizeLoop_step 11 ⟨(" b:\n  c\nd" : String).data, ⟨2, 4⟩, false, [1, 0]⟩ ⟨(":\n  c\nd" : String).data, ⟨2, 6⟩, false, [1, 0]⟩ [⟨.IF, "if", ⟨1, 3⟩⟩, ⟨.IDENTIFIER, "a", ⟨1, 5⟩⟩, ⟨.COLON, ":", ⟨1, 6⟩⟩, ⟨.NEWLINE, "\n", ⟨2, 1⟩⟩, ⟨.INDENT, "", ⟨2, 2⟩⟩, ⟨.IF, "if", ⟨2, 4⟩⟩] ⟨.IDENTIFIER, "b", ⟨2, 6⟩⟩ rfl h6 (by decide)
      _ = tokenizeLoop 10 ⟨("\n  c\nd" : String).data, ⟨2, 7⟩, false, [1, 0]⟩ [⟨.IF, "if", ⟨1, 3⟩⟩, ⟨.IDENTIFIER, "a", ⟨1, 5⟩⟩, ⟨.COLON, ":", ⟨1, 6⟩⟩, ⟨.NEWLINE, "\n", ⟨2, 1⟩⟩, ⟨.INDENT, "", ⟨2, 2⟩⟩, ⟨.IF, "if", ⟨2, 4⟩⟩, ⟨.IDENTIFIER, "b", ⟨2, 6⟩⟩, ⟨.COLON, ":", ⟨2, 7⟩⟩] := tokenizeLoop_step 10 ⟨(":\n  c\nd" : String).data, ⟨2, 6⟩, false, [1, 0]⟩ ⟨("\n  c\nd" : String).data, ⟨2, 7⟩, false, [1, 0]⟩ [⟨.IF, "if", ⟨1, 3⟩⟩, ⟨.IDENTIFIER, "a", ⟨1, 5⟩⟩, ⟨.COLON, ":", ⟨1, 6⟩⟩, ⟨.NEWLINE, "\n", ⟨2, 1⟩⟩, ⟨.INDENT, "", ⟨2, 2⟩⟩, ⟨.IF, "if", ⟨2, 4⟩⟩, ⟨.IDENTIFIER, "b", ⟨2, 6⟩⟩] ⟨.COLON, ":", ⟨2, 7⟩⟩ rfl h7 (by decide)
      _ = tokenizeLoop 9 ⟨("  c\nd" : String).data, ⟨3, 1⟩, true, [1, 0]⟩ [⟨.IF, "if", ⟨1, 3⟩⟩, ⟨.IDENTIFIER, "a", ⟨1, 5⟩⟩, ⟨.COLON, ":", ⟨1, 6⟩⟩, ⟨.NEWLINE, "\n", ⟨2, 1⟩⟩, ⟨.INDENT, "", ⟨2, 2⟩⟩, ⟨.IF, "if", ⟨2, 4⟩⟩, ⟨.IDENTIFIER, "b", ⟨2, 6⟩⟩, ⟨.COLON, ":", ⟨2, 7⟩⟩, ⟨.NEWLINE, "\n", ⟨3, 1⟩⟩] := tokenizeLoop_step 9 ⟨("\n  c\nd" : String).data, ⟨2, 7⟩, false, [1, 0]⟩ ⟨("  c\nd" : String).data, ⟨3, 1⟩, true, [1, 0]⟩ [⟨.IF, "if", ⟨1, 3⟩⟩, ⟨.IDENTIFIER, "a", ⟨1, 5⟩⟩, ⟨.COLON, ":", ⟨1, 6⟩⟩, ⟨.NEWLINE, "\n", ⟨2, 1⟩⟩, ⟨.INDENT, "", ⟨2, 2⟩⟩, ⟨.IF, "if", ⟨2, 4⟩⟩, ⟨.IDENTIFIER, "b", ⟨2, 6⟩⟩, ⟨.COLON, ":", ⟨2, 7⟩⟩] ⟨.NEWLINE, "\n", ⟨3, 1⟩⟩ rfl h8 (by decide)
      _ = tokenizeLoop 8 ⟨("c\nd" : String).data, ⟨3, 3⟩, false, [2, 1, 0]⟩ [⟨.IF, "if", ⟨1, 3⟩⟩, ⟨.IDENTIFIER, "a", ⟨1, 5⟩⟩, ⟨.COLON, ":", ⟨1, 6⟩⟩, ⟨.NEWLINE, "\n", ⟨2, 1⟩⟩, ⟨.INDENT, "", ⟨2, 2⟩⟩, ⟨.IF, "if", ⟨2, 4⟩⟩, ⟨.IDENTIFIER, "b", ⟨2, 6⟩⟩, ⟨.COLON, ":", ⟨2, 7⟩⟩, ⟨.NEWLINE, "\n", ⟨3, 1⟩⟩, ⟨.INDENT, "", ⟨3, 3⟩⟩] := tokenizeLoop_step 8 ⟨("  c\nd" : String).data, ⟨3, 1⟩, true, [1, 0]⟩ ⟨("c\nd" : String).data, ⟨3, 3⟩, false, [2, 1, 0]⟩ [⟨.IF, "if", ⟨1, 3⟩⟩, ⟨.IDENTIFIER, "a", ⟨1, 5⟩⟩, ⟨.COLON, ":", ⟨1, 6⟩⟩, ⟨.NEWLINE, "\n", ⟨2, 1⟩⟩, ⟨.INDENT, "", ⟨2, 2⟩⟩, ⟨.IF, "if", ⟨2, 4⟩⟩, ⟨.IDENTIFIER, "b", ⟨2, 6⟩⟩, ⟨.COLON, ":", ⟨2, 7⟩⟩, ⟨.NEWLINE, "\n", ⟨3, 1⟩⟩] ⟨.INDENT, "", ⟨3, 3⟩⟩ rfl h9 (by decide)
      _ = tokenizeLoop 7 ⟨("\nd" : String).data, ⟨3, 4⟩, false, [2, 1, 0]⟩ [⟨.IF, "if", ⟨1, 3⟩⟩, ⟨.IDENTIFIER, "a", ⟨1, 5⟩⟩, ⟨.COLON, ":", ⟨1, 6⟩⟩, ⟨.NEWLINE, "\n", ⟨2, 1⟩⟩, ⟨.INDENT, "", ⟨2, 2⟩⟩, ⟨.IF, "if", ⟨2, 4⟩⟩, ⟨.IDENTIFIER, "b", ⟨2, 6⟩⟩, ⟨.COLON, ":", ⟨2, 7⟩⟩, ⟨.NEWLINE, "\n", ⟨3, 1⟩⟩, ⟨.INDENT, "", ⟨3, 3⟩⟩, ⟨.IDENTIFIER, "c", ⟨3, 4⟩⟩] := tokenizeLoop_step 7 ⟨("c\nd" : String).data, ⟨3, 3⟩, false, [2, 1, 0]⟩ ⟨("\nd" : String).data, ⟨3, 4⟩, false, [2, 1, 0]⟩ [⟨.IF, "if", ⟨1, 3⟩⟩, ⟨.IDENTIFIER, "a", ⟨1, 5⟩⟩, ⟨.COLON, ":", ⟨1, 6⟩⟩, ⟨.NEWLINE, "\n", ⟨2, 1⟩⟩, ⟨.INDENT, "", ⟨2, 2⟩⟩, ⟨.IF, "if", ⟨2, 4⟩⟩, ⟨.IDENTIFIER, "b", ⟨2, 6⟩⟩, ⟨.COLON, ":", ⟨2, 7⟩⟩, ⟨.NEWLINE, "\n", ⟨3, 1⟩⟩, ⟨.INDENT, "", ⟨3, 3⟩⟩] ⟨.IDENTIFIER, "c", ⟨3, 4⟩⟩ rfl h10 (by decide)
      _ = tokenizeLoop 6 ⟨("d" : String).data, ⟨4, 1⟩, true, [2, 1, 0]⟩ [⟨.IF, "if", ⟨1, 3⟩⟩, ⟨.IDENTIFIER, "a", ⟨1, 5⟩⟩, ⟨.COLON, ":", ⟨1, 6⟩⟩, ⟨.NEWLINE, "\n", ⟨2, 1⟩⟩, ⟨.INDENT, "", ⟨2, 2⟩⟩, ⟨.IF, "if", ⟨2, 4⟩⟩, ⟨.IDENTIFIER, "b", ⟨2, 6⟩⟩, ⟨.COLON, ":", ⟨2, 7⟩⟩, ⟨.NEWLINE, "\n", ⟨3, 1⟩⟩, ⟨.INDENT, "", ⟨3, 3⟩⟩, ⟨.IDENTIFIER, "c", ⟨3, 4⟩⟩, ⟨.NEWLINE, "\n", ⟨4, 1⟩⟩] := tokenizeLoop_step 6 ⟨("\nd" : String).data, ⟨3, 4⟩, false, [2, 1, 0]⟩ ⟨("d" : String).data, ⟨4, 1⟩, true, [2, 1, 0]⟩ [⟨.IF, "if", ⟨1, 3⟩⟩, ⟨.IDENTIFIER, "a", ⟨1, 5⟩⟩, ⟨.COLON, ":", ⟨1, 6⟩⟩, ⟨.NEWLINE, "\n", ⟨2, 1⟩⟩, ⟨.INDENT, "", ⟨2, 2⟩⟩, ⟨.IF, "if", ⟨2, 4⟩⟩, ⟨.IDENTIFIER, "b", ⟨2, 6⟩⟩, ⟨.COLON, ":", ⟨2, 7⟩⟩, ⟨.NEWLINE, "\n", ⟨3, 1⟩⟩, ⟨.INDENT, "", ⟨3, 3⟩⟩, ⟨.IDENTIFIER, "c", ⟨3, 4⟩⟩] ⟨.NEWLINE, "\n", ⟨4, 1⟩⟩ rfl h11 (by decide)
      _ = tokenizeLoop 5 ⟨("d" : String).data, ⟨4, 1⟩, false, [0]⟩ [⟨.IF, "if", ⟨1, 3⟩⟩, ⟨.IDENTIFIER, "a", ⟨1, 5⟩⟩, ⟨.COLON, ":", ⟨1, 6⟩⟩, ⟨.NEWLINE, "\n", ⟨2, 1⟩⟩, ⟨.INDENT, "", ⟨2, 2⟩⟩, ⟨.IF, "if", ⟨2, 4⟩⟩, ⟨.IDENTIFIER, "b", ⟨2, 6⟩⟩, ⟨.COLON, ":", ⟨2, 7⟩⟩, ⟨.NEWLINE, "\n", ⟨3, 1⟩⟩, ⟨.INDENT, "", ⟨3, 3⟩⟩, ⟨.IDENTIFIER, "c", ⟨3, 4⟩⟩, ⟨.NEWLINE, "\n", ⟨4, 1⟩⟩, ⟨.DEDENT, "", ⟨4, 1⟩⟩] := tokenizeLoop_step 5 ⟨("d" : String).data, ⟨4, 1⟩, true, [2, 1, 0]⟩ ⟨("d" : String).data, ⟨4, 1⟩, false, [0]⟩ [⟨.IF, "if", ⟨1, 3⟩⟩, ⟨.IDENTIFIER, "a", ⟨1, 5⟩⟩, ⟨.COLON, ":", ⟨1, 6⟩⟩, ⟨.NEWLINE, "\n", ⟨2, 1⟩⟩, ⟨.INDENT, "", ⟨2, 2⟩⟩, ⟨.IF, "if", ⟨2, 4⟩⟩, ⟨.IDENTIFIER, "b", ⟨2, 6⟩⟩, ⟨.COLON, ":", ⟨2, 7⟩⟩, ⟨.NEWLINE, "\n", ⟨3, 1⟩⟩, ⟨.INDENT, "", ⟨3, 3⟩⟩, ⟨.IDENTIFIER, "c", ⟨3, 4⟩⟩, ⟨.NEWLINE, "\n", ⟨4, 1⟩⟩] ⟨.DEDENT, "", ⟨4, 1⟩⟩ rfl h12 (by decide)
      _ = tokenizeLoop 4 ⟨("" : String).data, ⟨4, 2⟩, false, [0]⟩ [⟨.IF, "if", ⟨1, 3⟩⟩, ⟨.IDENTIFIER, "a", ⟨1, 5⟩⟩, ⟨.COLON, ":", ⟨1, 6⟩⟩, ⟨.NEWLINE, "\n", ⟨2, 1⟩⟩, ⟨.INDENT, "", ⟨2, 2⟩⟩, ⟨.IF, "if", ⟨2, 4⟩⟩, ⟨.IDENTIFIER, "b", ⟨2, 6⟩⟩, ⟨.COLON, ":", ⟨2, 7⟩⟩, ⟨.NEWLINE, "\n", ⟨3, 1⟩⟩, ⟨.INDENT, "", ⟨3, 3⟩⟩, ⟨.IDENTIFIER, "c", ⟨3, 4⟩⟩, ⟨.NEWLINE, "\n", ⟨4, 1⟩⟩, ⟨.DEDENT, "", ⟨4, 1⟩⟩, ⟨.IDENTIFIER, "d", ⟨4, 2⟩⟩] := tokenizeLoop_step 4 ⟨("d" : String).data, ⟨4, 1⟩, false, [0]⟩ ⟨("" : String).data, ⟨4, 2⟩, false, [0]⟩ [⟨.IF, "if", ⟨1, 3⟩⟩, ⟨.IDENTIFIER, "a", ⟨1, 5⟩⟩, ⟨.COLON, ":", ⟨1, 6⟩⟩, ⟨.NEWLINE, "\n", ⟨2, 1⟩⟩, ⟨.INDENT, "", ⟨2, 2⟩⟩, ⟨.IF, "if", ⟨2, 4⟩⟩, ⟨.IDENTIFIER, "b", ⟨2, 6⟩⟩, ⟨.COLON, ":", ⟨2, 7⟩⟩, ⟨.NEWLINE, "\n", ⟨3, 1⟩⟩, ⟨.INDENT, "", ⟨3, 3⟩⟩, ⟨.IDENTIFIER, "c", ⟨3, 4⟩⟩, ⟨.NEWLINE, "\n", ⟨4, 1⟩⟩, ⟨.DEDENT, "", ⟨4, 1⟩⟩] ⟨.IDENTIFIER, "d", ⟨4, 2⟩⟩ rfl h13 (by decide)
      _ = .ok ([⟨.IF, "if", ⟨1, 3⟩⟩, ⟨.IDENTIFIER, "a", ⟨1, 5⟩⟩, ⟨.COLON, ":", ⟨1, 6⟩⟩, ⟨.NEWLINE, "\n", ⟨2, 1⟩⟩, ⟨.INDENT, "", ⟨2, 2⟩⟩, ⟨.IF, "if", ⟨2, 4⟩⟩, ⟨.IDENTIFIER, "b", ⟨2, 6⟩⟩, ⟨.COLON, ":", ⟨2, 7⟩⟩, ⟨.NEWLINE, "\n", ⟨3, 1⟩⟩, ⟨.INDENT, "", ⟨3, 3⟩⟩, ⟨.IDENTIFIER, "c", ⟨3, 4⟩⟩, ⟨.NEWLINE, "\n", ⟨4, 1⟩⟩, ⟨.DEDENT, "", ⟨4, 1⟩⟩, ⟨.IDENTIFIER, "d", ⟨4, 2⟩⟩], ⟨("" : String).data, ⟨4, 2⟩, false, [0]⟩) := tokenizeLoop_done 3 ⟨("" : String).data, ⟨4, 2⟩, false, [0]⟩ [⟨.IF, "if", ⟨1, 3⟩⟩, ⟨.IDENTIFIER, "a", ⟨1, 5⟩⟩, ⟨.COLON, ":", ⟨1, 6⟩⟩, ⟨.NEWLINE, "\n", ⟨2, 1⟩⟩, ⟨.INDENT, "", ⟨2, 2⟩⟩, ⟨.IF, "if", ⟨2, 4⟩⟩, ⟨.IDENTIFIER, "b", ⟨2, 6⟩⟩, ⟨.COLON, ":", ⟨2, 7⟩⟩, ⟨.NEWLINE, "\n", ⟨3, 1⟩⟩, ⟨.INDENT, "", ⟨3, 3⟩⟩, ⟨.IDENTIFIER, "c", ⟨3, 4⟩⟩, ⟨.NEWLINE, "\n", ⟨4, 1⟩⟩, ⟨.DEDENT, "", ⟨4, 1⟩⟩, ⟨.IDENTIFIER, "d", ⟨4, 2⟩⟩] rfl
  unfold tokenize
  rw [hloop]
  rfl


/-- C1, amended: in every token stream that `Lexer::tokenize` produces
without a diagnostic, the number of DEDENT tokens is at most the number of
INDENT tokens.  (Equality, as the spec claims, can fail: `Lexer::nextToken`
returns only the first token of a multi-level dedent and discards the
rest, while `handleIndentation` has already popped the indent stack for
every discarded DEDENT.) -/
theorem c1_dedents_le_indents (fuel : Nat) (source : String) (toks : List Token)
    (h : tokenize fuel source = .ok toks) :
    countTok .DEDENT toks ≤ countTok .INDENT toks := by
  unfold tokenize at h
  rcases hloop : tokenizeLoop fuel (initLexState source) [] with e | ⟨toks0, st⟩
  · rw [hloop] at h
    simp at h
  · rw [hloop] at h
    dsimp only at h
    simp only [Except.ok.injEq] at h
    subst h
    have hinv := tokenizeLoop_inv fuel (initLexState source) [] toks0 st
      (by simp [initLexState]) hloop
    rw [ensureEof_counts (toks0 ++ flushDedents st.stack st.pos) st.pos .DEDENT (by decide),
      ensureEof_counts (toks0 ++ flushDedents st.stack st.pos) st.pos .INDENT (by decide),
      countTok_append, countTok_append]
    have hD := flushDedents_dedents st.stack st.pos hinv.1
    have hI := flushDedents_indents st.stack st.pos
    have h2 := hinv.2
    simp only [countTok_nil] at h2
    have hlen : (initLexState source).stack.length = 1 := rfl
    omega

/-- C1, witness for `c1_dedents_le_indents` on the one-identifier
source `x`. -/
theorem c1_witness :
    tokenize 6 "x" = .ok [⟨.IDENTIFIER, "x", ⟨1, 2⟩⟩, ⟨.EOF_TOKEN, "", ⟨1, 2⟩⟩] ∧
    countTok .DEDENT [⟨.IDENTIFIER, "x", ⟨1, 2⟩⟩, ⟨.EOF_TOKEN, "", ⟨1, 2⟩⟩] ≤
      countTok .INDENT [⟨.IDENTIFIER, "x", ⟨1, 2⟩⟩, ⟨.EOF_TOKEN, "", ⟨1, 2⟩⟩] :=
  ⟨rfl, c1_dedents_le_indents 6 "x"
    [⟨.IDENTIFIER, "x", ⟨1, 2⟩⟩, ⟨.EOF_TOKEN, "", ⟨1, 2⟩⟩] rfl⟩

end Caesar
